import Mathlib

/-!
Verification of the EPCIS damaged-status misuse-detection engine
(`models.py`, `detectors.py`, `processor.py`).

The embedding is shallow: Python classes become Lean structures, Python
dicts become insertion-ordered association lists (Python 3.7+ dicts keep
insertion order, loops iterate in that order), `datetime` values become
`Int` seconds (all the code ever does with them is compare, subtract and
add fixed `timedelta`s), and Python floats become `ℚ` (the code only
multiplies, adds and compares them).  Python truthiness of optional
strings (`if x:`) is modelled by `otruthy`.  A detector's
`detect(event, context)` becomes a pure function from its private state
to (new private state, optional alert).
-/

namespace StatusDashboard

/-! ## Vocabulary constants (models.py enumerations) -/

def dispDamaged : String := "urn:epcglobal:cbv:disp:damaged"

def dispSellableAccessible : String := "urn:epcglobal:cbv:disp:sellable_accessible"

def dispSellableNotAccessible : String := "urn:epcglobal:cbv:disp:sellable_not_accessible"

def dispInTransit : String := "urn:epcglobal:cbv:disp:in_transit"

def dispRetailSold : String := "urn:epcglobal:cbv:disp:retail_sold"

def dispActive : String := "urn:epcglobal:cbv:disp:active"

def dispNonSellableOther : String := "urn:epcglobal:cbv:disp:non_sellable_other"

def dispOnlineSold : String := "http://nedapretail.com/disp/online_sold"

def bizInspecting : String := "urn:epcglobal:cbv:bizstep:inspecting"

def bizShipping : String := "urn:epcglobal:cbv:bizstep:shipping"

def bizReceiving : String := "urn:epcglobal:cbv:bizstep:receiving"

def bizRetailSelling : String := "urn:epcglobal:cbv:bizstep:retail_selling"

def bizCycleCounting : String := "urn:epcglobal:cbv:bizstep:cycle_counting"

def bttInv : String := "urn:epcglobal:cbv:btt:inv"

def sdtOwningParty : String := "urn:epcglobal:cbv:sdt:owning_party"

/-- EPCIS action kinds (models.py `EPCISAction`). -/
inductive EPCISAction where
  | ADD
  | OBSERVE
  | DELETE
deriving DecidableEq, Repr

/-- models.py `EPCISAction.value`. -/
def EPCISAction.value : EPCISAction → String
  | .ADD => "ADD"
  | .OBSERVE => "OBSERVE"
  | .DELETE => "DELETE"

/-- Alert severities (models.py `AlertSeverity`). -/
inductive AlertSeverity where
  | Critical
  | High
  | Medium
  | Low
deriving DecidableEq, Repr

/-- Python truthiness of an optional string: `None` and `""` are falsy. -/
def otruthy : Option String → Bool
  | none => false
  | some s => decide (s ≠ "")

/-- Python `x or default` on an optional string (used as `location or "unknown"`). -/
def pyOr (o : Option String) (d : String) : String :=
  match o with
  | none => d
  | some s => if s = "" then d else s

/-! ## Association lists standing for Python dicts

Python dicts preserve insertion order; assigning to an existing key keeps
its position, assigning to a fresh key appends, `del` removes the entry. -/

/-- Dict read: first binding of `k`, if any. -/
def alookup {α : Type} (k : String) : List (String × α) → Option α
  | [] => none
  | (k', v) :: t => if k = k' then some v else alookup k t

/-- Dict write `d[k] = v`: replace in place, or append a fresh binding. -/
def aupsert {α : Type} (k : String) (v : α) : List (String × α) → List (String × α)
  | [] => [(k, v)]
  | (k', v') :: t => if k = k' then (k', v) :: t else (k', v') :: aupsert k v t

/-- Dict delete `del d[k]` (identity when the key is absent, matching the
guarded `if k in d: del d[k]` uses in the detectors). -/
def aerase {α : Type} (k : String) : List (String × α) → List (String × α)
  | [] => []
  | (k', v') :: t => if k = k' then t else (k', v') :: aerase k t

/-- Membership in a Python set modelled as a duplicate-free list. -/
def elemStr (x : String) : List String → Bool
  | [] => false
  | y :: t => if x = y then true else elemStr x t

/-- Python `set.add`. -/
def addToSet (s : List String) (x : String) : List String :=
  if elemStr x s then s else s ++ [x]

/-- Python `set.discard`. -/
def removeFromSet (s : List String) (x : String) : List String :=
  s.filter (fun y => decide (y ≠ x))

/-! ## Event model (models.py `EPCISEvent`) -/

/-- One entry of `biz_transaction_list` (`{"type": ..., "value": ...}`). -/
structure BizTransaction where
  ttype : Option String := none
  value : Option String := none
deriving DecidableEq, Repr

/-- One entry of `destination_list` (`{"type": ..., "destination": ...}`);
only the type is ever read by the detectors. -/
structure DestEntry where
  dtype : Option String := none
deriving DecidableEq, Repr

/-- models.py `EPCISEvent`, restricted to the fields the processing core
reads.  `event_time` is seconds as `Int`. -/
structure EPCISEvent where
  id : String
  action : EPCISAction
  event_time : Int
  disposition : Option String := none
  biz_step : Option String := none
  biz_location : Option String := none
  epc_list : List String := []
  biz_transaction_list : List BizTransaction := []
  destination_list : List DestEntry := []
deriving DecidableEq, Repr

namespace EPCISEvent

/-- `get_primary_epc`: first EPC in the list, if any. -/
def get_primary_epc (e : EPCISEvent) : Option String := e.epc_list.head?

/-- `get_location`: the business-location URN. -/
def get_location (e : EPCISEvent) : Option String := e.biz_location

/-- `is_damaged`: disposition equals the damaged URN (falsy dispositions
short-circuit to false, and are not the damaged URN anyway). -/
def is_damaged (e : EPCISEvent) : Bool :=
  decide (e.disposition = some dispDamaged)

/-- `is_sold`: retail-selling business step, or a (truthy) sold disposition. -/
def is_sold (e : EPCISEvent) : Bool :=
  decide (e.biz_step = some bizRetailSelling) ||
    (otruthy e.disposition &&
      (decide (e.disposition = some dispRetailSold) ||
        decide (e.disposition = some dispOnlineSold)))

/-- `is_inspection`. -/
def is_inspection (e : EPCISEvent) : Bool :=
  decide (e.biz_step = some bizInspecting)

/-- `is_shipment`. -/
def is_shipment (e : EPCISEvent) : Bool :=
  decide (e.biz_step = some bizShipping)

/-- `is_receiving`. -/
def is_receiving (e : EPCISEvent) : Bool :=
  decide (e.biz_step = some bizReceiving)

end EPCISEvent

/-! ## Alerts (models.py `Alert`) -/

/-- Values appearing in an alert's `details` map. -/
inductive DVal where
  | str (s : String)
  | ostr (s : Option String)
  | int (n : Int)
  | rat (q : ℚ)
  | bool (b : Bool)
deriving DecidableEq, Repr

/-- models.py `Alert`.  `location` is optional because rule 4 copies a
possibly-`None` stored location into it; timestamps are `Int` seconds. -/
structure Alert where
  alert_id : String
  rule_id : Nat
  rule_name : String
  severity : AlertSeverity
  timestamp : Int
  epc : String
  location : Option String
  description : String
  details : List (String × DVal) := []
  resolved : Bool := false
  resolved_at : Option Int := none
  event_id : Option String := none
deriving DecidableEq, Repr

/-! ## Shared context (processor.py `self.context`)

The processor keeps a single mutable dict reused across events; keys the
detectors read but that no processor code path ever writes (the
sublocation classifier under `"location_mapper"`) stay at their initial
absent value.  Descriptions with interpolated floats are abstracted to
their constant prefix; float arithmetic is carried out in `ℚ`. -/

/-- Result of `location_mapper.get_store_info` (location_mapper.py). -/
structure StoreInfo where
  sublocation_type : Option String := none
  sublocation_name : Option String := none
  store_name : Option String := none

/-- The sublocation-classifier collaborator read by rules 7 and 8. -/
structure LocationMapper where
  get_store_info : String → StoreInfo

/-- The shared context dict.  Initial values model absent keys as read
through `dict.get` (absent ↦ `None`, and `get("is_bulk_operation", False)`
↦ `false`). -/
structure Context where
  is_bulk_operation : Bool := false
  transaction_id : Option String := none
  previous_disposition : Option String := none
  epc : Option String := none
  location_mapper : Option LocationMapper := none

/-! ## Detector configuration (defaults from `get_all_detectors` / config.py) -/

def rule4Threshold : Nat := 2

def rule5Multiplier : ℚ := 2

def rule5WindowHours : Int := 24

/-- Rule 3's target steps under the default configuration:
`stock_report_dispositions = [damaged]` maps through
`DISPOSITION_TO_BIZSTEP` (generate_damaged_stock_report.py) to
`[inspecting]`. -/
def rule3TargetBizSteps : List String := [bizInspecting]

def rule3ReleasedStatuses : List String :=
  [dispSellableAccessible, dispSellableNotAccessible, dispActive]

/-- Rule 7's denylist of dispositions invalid on the sales floor. -/
def rule7Denylist : List String :=
  [dispSellableNotAccessible, dispRetailSold, dispInTransit, dispNonSellableOther,
   dispDamaged,
   "http://nedapretail.com/disp/online_sold",
   "http://nedapretail.com/disp/in_progress",
   "http://nedapretail.com/disp/container_closed",
   "http://nedapretail.com/disp/received_order",
   "http://nedapretail.com/disp/retail_reserved",
   "http://nedapretail.com/disp/retail_reserved_for_peak",
   "http://nedapretail.com/disp/lent",
   "http://nedapretail.com/disp/faulty",
   "http://nedapretail.com/disp/missing_article",
   "http://nedapretail.com/disp/customized",
   "http://nedapretail.com/disp/hemming"]

/-- Rule 8's denylist of dispositions invalid in the stockroom. -/
def rule8Denylist : List String :=
  [dispSellableAccessible, dispRetailSold,
   "http://nedapretail.com/disp/on_display",
   "http://nedapretail.com/disp/in_showcase"]

/-! ## The twelve detectors (detectors.py) -/

/-- Rule 1: damaged items in regular shipments. -/
def rule1Detect (e : EPCISEvent) (_ctx : Context) : Option Alert :=
  if e.is_shipment && e.is_damaged && decide (e.action = .ADD) then
    match e.get_primary_epc, e.get_location with
    | some p, some l =>
      if p ≠ "" ∧ l ≠ "" then
        let is_return := e.destination_list.any (fun d => decide (d.dtype = some sdtOwningParty))
        if is_return then none
        else some
          { alert_id := "R1_" ++ e.id, rule_id := 1
            rule_name := "Damaged Items in Regular Shipments"
            severity := .High, timestamp := e.event_time
            epc := p, location := some l
            description := "Damaged item added to regular shipment"
            details := [("biz_step", .ostr e.biz_step), ("disposition", .ostr e.disposition),
                        ("expected", .str "Return shipment for damaged items")]
            event_id := some e.id }
      else none
    | _, _ => none
  else none

/-- Rule 2: persistent damaged status through receiving. -/
def rule2Detect (e : EPCISEvent) (ctx : Context) : Option Alert :=
  if e.is_receiving && e.is_damaged then
    match e.get_primary_epc, e.get_location, ctx.previous_disposition with
    | some p, some l, some prev =>
      if p ≠ "" ∧ l ≠ "" ∧ prev ≠ "" then
        if prev = dispDamaged then
          some
            { alert_id := "R2_" ++ e.id, rule_id := 2
              rule_name := "Persistent Damaged Status Through Receiving"
              severity := .Medium, timestamp := e.event_time
              epc := p, location := some l
              description := "Item received with damaged status that wasn't cleared"
              details := [("previous_disposition", .str prev),
                          ("current_disposition", .ostr e.disposition),
                          ("biz_step", .ostr e.biz_step)]
              event_id := some e.id }
        else none
      else none
    | _, _, _ => none
  else none

/-- Rule 3: status released in a configured business step. -/
def rule3Detect (e : EPCISEvent) (ctx : Context) : Option Alert :=
  if rule3TargetBizSteps.isEmpty then none
  else
    match e.biz_step with
    | none => none
    | some bs =>
      if bs = "" ∨ bs ∉ rule3TargetBizSteps then none
      else
        match e.disposition with
        | none => none
        | some d =>
          if d = "" ∨ d ∉ rule3ReleasedStatuses then none
          else
            match e.get_primary_epc, e.get_location with
            | some p, some l =>
              if p ≠ "" ∧ l ≠ "" then
                some
                  { alert_id := "R3_" ++ e.id, rule_id := 3
                    rule_name := "Status Released"
                    severity := .High, timestamp := e.event_time
                    epc := p, location := some l
                    description := "Status released: " ++ d ++ " in biz_step " ++ bs
                    details := [("disposition", .str d), ("biz_step", .str bs),
                                ("is_bulk_operation", .bool ctx.is_bulk_operation),
                                ("action", .str e.action.value)]
                    event_id := some e.id }
              else none
            | _, _ => none

/-- Private state of rule 4, one entry per tracked damaged item. -/
structure Rule4Info where
  damaged_since : Int
  location : Option String
  count_not_observed : Nat
deriving DecidableEq, Repr

/-- Rule 4: damaged items not observed during counts. -/
def rule4Detect (e : EPCISEvent) (_ctx : Context) (st : List (String × Rule4Info)) :
    List (String × Rule4Info) × Option Alert :=
  match e.get_primary_epc with
  | none => (st, none)
  | some p =>
    if p = "" then (st, none)
    else
      let location := e.get_location
      let st1 :=
        if e.is_damaged && decide (e.action = .ADD) then
          aupsert p { damaged_since := e.event_time, location := location, count_not_observed := 0 } st
        else st
      if decide (e.action = .OBSERVE) && otruthy location then
        match alookup p st1 with
        | none => (st1, none)
        | some info =>
          if location = info.location then
            (aupsert p { info with count_not_observed := 0 } st1, none)
          else
            let info' := { info with count_not_observed := info.count_not_observed + 1 }
            let st2 := aupsert p info' st1
            if info'.count_not_observed ≥ rule4Threshold then
              (st2, some
                { alert_id := "R4_" ++ e.id, rule_id := 4
                  rule_name := "Damaged Items Not Observed in Counts"
                  severity := .Medium, timestamp := e.event_time
                  epc := p, location := info.location
                  description := "Damaged item not observed for " ++
                    toString info'.count_not_observed ++ " consecutive counts"
                  details := [("damaged_since", .int info.damaged_since),
                              ("consecutive_counts_missing", .int info'.count_not_observed)]
                  event_id := some e.id })
            else (st2, none)
      else (st1, none)

/-- Private state of rule 5. -/
structure Rule5State where
  location_assignments : List (String × List Int) := []
  location_historical_avg : List (String × ℚ) := []
deriving DecidableEq, Repr

/-- The window count rule 5 computes for a qualifying event: surviving
timestamps in the (default 24h) window plus one entry per EPC of the
current event. -/
def rule5WindowCount (st : Rule5State) (e : EPCISEvent) (loc : String) : Nat :=
  (((alookup loc st.location_assignments).getD []).filter
      (fun ts => decide (ts > e.event_time - rule5WindowHours * 3600))).length
    + e.epc_list.length

/-- Rule 5: high volume of damaged assignments. -/
def rule5Detect (e : EPCISEvent) (_ctx : Context) (st : Rule5State) :
    Rule5State × Option Alert :=
  if e.is_inspection && e.is_damaged && decide (e.action = .ADD) then
    match e.get_location with
    | none => (st, none)
    | some loc =>
      if loc = "" then (st, none)
      else
        let now := e.event_time
        let cutoff := now - rule5WindowHours * 3600
        let pruned := ((alookup loc st.location_assignments).getD []).filter
          (fun ts => decide (ts > cutoff))
        let num_damaged := e.epc_list.length
        let lst := pruned ++ List.replicate num_damaged now
        let assignments' := aupsert loc lst st.location_assignments
        let current_count := lst.length
        match alookup loc st.location_historical_avg with
        | none =>
          ({ location_assignments := assignments'
             location_historical_avg :=
               aupsert loc (current_count : ℚ) st.location_historical_avg }, none)
        | some avg =>
          let threshold := avg * rule5Multiplier
          if (current_count : ℚ) > threshold then
            ({ st with location_assignments := assignments' }, some
              { alert_id := "R5_" ++ e.id, rule_id := 5
                rule_name := "High Volume of Damaged Assignments"
                severity := .Medium, timestamp := e.event_time
                epc := pyOr e.get_primary_epc "multiple", location := some loc
                description := "Unusual spike in damaged assignments"
                details := [("current_count", .int current_count),
                            ("historical_average", .rat avg),
                            ("threshold", .rat threshold),
                            ("window_hours", .int rule5WindowHours),
                            ("num_items_in_event", .int num_damaged)]
                event_id := some e.id })
          else
            ({ location_assignments := assignments'
               location_historical_avg :=
                 aupsert loc (avg * (9/10) + (current_count : ℚ) * (1/10))
                   st.location_historical_avg }, none)
  else (st, none)

/-- Rule 6: damaged items sold at POS. -/
def rule6Detect (e : EPCISEvent) (ctx : Context) (st : List String) :
    List String × Option Alert :=
  let st1 :=
    if e.is_damaged && decide (e.action = .ADD) then e.epc_list.foldl addToSet st else st
  let st2 :=
    match ctx.previous_disposition with
    | none => st1
    | some prev =>
      if prev ≠ "" ∧ prev ≠ dispDamaged then
        match e.get_primary_epc with
        | some p => if p ≠ "" then removeFromSet st1 p else st1
        | none => st1
      else st1
  if e.is_sold then
    match e.epc_list.find? (fun epc => elemStr epc st2) with
    | some epc =>
      (st2, some
        { alert_id := "R6_" ++ e.id, rule_id := 6
          rule_name := "Damaged Items Sold at POS"
          severity := .Critical, timestamp := e.event_time
          epc := epc, location := some (pyOr e.get_location "unknown")
          description := "Damaged item sold through point-of-sale"
          details := [("transaction_id", .ostr ctx.transaction_id),
                      ("biz_step", .ostr e.biz_step),
                      ("disposition", .ostr e.disposition)]
          event_id := some e.id })
    | none => (st2, none)
  else (st2, none)

/-- Rule 7: incorrect disposition in a sales-floor sublocation. -/
def rule7Detect (e : EPCISEvent) (ctx : Context) : Option Alert :=
  match e.disposition with
  | none => none
  | some d =>
    if d = "" ∨ d ∉ rule7Denylist then none
    else
      match e.get_location with
      | none => none
      | some loc =>
        if loc = "" then none
        else
          match ctx.location_mapper with
          | none => none
          | some lm =>
            let si := lm.get_store_info loc
            if si.sublocation_type ≠ some "sales_floor" then none
            else
              match e.get_primary_epc with
              | some p =>
                if p ≠ "" then
                  some
                    { alert_id := "R7_" ++ e.id, rule_id := 7
                      rule_name := "Incorrect Disposition in Sales Floor"
                      severity := .Medium, timestamp := e.event_time
                      epc := p, location := some loc
                      description := "Disposition should not be in sales_floor sublocation"
                      details := [("disposition", .str d),
                                  ("sublocation_type", .ostr si.sublocation_type),
                                  ("sublocation_name", .ostr si.sublocation_name),
                                  ("store_name", .ostr si.store_name),
                                  ("biz_step", .ostr e.biz_step)]
                      event_id := some e.id }
                else none
              | none => none

/-- Rule 8: incorrect disposition in a stockroom sublocation. -/
def rule8Detect (e : EPCISEvent) (ctx : Context) : Option Alert :=
  match e.disposition with
  | none => none
  | some d =>
    if d = "" ∨ d ∉ rule8Denylist then none
    else
      match e.get_location with
      | none => none
      | some loc =>
        if loc = "" then none
        else
          match ctx.location_mapper with
          | none => none
          | some lm =>
            let si := lm.get_store_info loc
            if si.sublocation_type ≠ some "stockroom" then none
            else
              match e.get_primary_epc with
              | some p =>
                if p ≠ "" then
                  some
                    { alert_id := "R8_" ++ e.id, rule_id := 8
                      rule_name := "Incorrect Disposition in Stockroom"
                      severity := .Medium, timestamp := e.event_time
                      epc := p, location := some loc
                      description := "Disposition should not be in stockroom sublocation"
                      details := [("disposition", .str d),
                                  ("sublocation_type", .ostr si.sublocation_type),
                                  ("sublocation_name", .ostr si.sublocation_name),
                                  ("store_name", .ostr si.store_name),
                                  ("biz_step", .ostr e.biz_step)]
                      event_id := some e.id }
                else none
              | none => none

/-- Rule 9: sold items returned as damaged. -/
def rule9Detect (e : EPCISEvent) (_ctx : Context) (st : List String) :
    List String × Option Alert :=
  let st1 :=
    if e.is_sold && decide (e.action = .ADD) then e.epc_list.foldl addToSet st else st
  if e.is_inspection && e.is_damaged && decide (e.action = .ADD) then
    match e.epc_list.find? (fun epc => elemStr epc st1) with
    | some epc =>
      (st1, some
        { alert_id := "R9_" ++ e.id, rule_id := 9
          rule_name := "Sold Items Returned as Damaged"
          severity := .High, timestamp := e.event_time
          epc := epc, location := some (pyOr e.get_location "unknown")
          description := "Sold item incorrectly returned as damaged without proper return processing"
          details := [("previous_status", .str "Sold"),
                      ("requires_return_processing", .bool true),
                      ("biz_step", .ostr e.biz_step)]
          event_id := some e.id })
    | none => (st1, none)
  else (st1, none)

/-- Rule 10's scan over tracked items in insertion order, returning the
first entry whose damaged timestamp is more than 30 minutes older than
the current event's time. -/
def rule10Scan (now : Int) : List (String × EPCISEvent) → Option (String × EPCISEvent)
  | [] => none
  | (epc, de) :: t =>
    if now - de.event_time > 30 * 60 then some (epc, de) else rule10Scan now t

/-- The alert rule 10 builds for a stale entry. -/
def mkRule10Alert (e : EPCISEvent) (epc : String) (de : EPCISEvent) : Alert :=
  { alert_id := "R10_" ++ e.id, rule_id := 10
    rule_name := "Damaged Without Stock Mutation"
    severity := .Medium, timestamp := e.event_time
    epc := epc, location := some (pyOr de.get_location "unknown")
    description := "Damaged status assigned without corresponding stock adjustment"
    details := [("damaged_assigned_at", .int de.event_time),
                ("time_since_assignment_minutes", .rat (((e.event_time - de.event_time : Int) : ℚ) / 60))]
    event_id := some de.id }

/-- Rule 10, first paragraph: track damaged assignments. -/
def rule10Track (e : EPCISEvent) (st : List (String × EPCISEvent)) :
    List (String × EPCISEvent) :=
  if e.is_inspection && e.is_damaged && decide (e.action = .ADD) then
    e.epc_list.foldl (fun m epc => aupsert epc e m) st
  else st

/-- Rule 10, second paragraph: a DELETE action clears the tracking entry
of every EPC it references. -/
def rule10ClearOnDelete (e : EPCISEvent) (st : List (String × EPCISEvent)) :
    List (String × EPCISEvent) :=
  if decide (e.action = .DELETE) then
    e.epc_list.foldl (fun m epc => aerase epc m) st
  else st

/-- Rule 10: damaged status without corresponding stock mutation. -/
def rule10Detect (e : EPCISEvent) (_ctx : Context) (st : List (String × EPCISEvent)) :
    List (String × EPCISEvent) × Option Alert :=
  let st2 := rule10ClearOnDelete e (rule10Track e st)
  match rule10Scan e.event_time st2 with
  | some (epc, de) => (st2, some (mkRule10Alert e epc de))
  | none => (st2, none)

/-- Rule 11: double stock deduction (damaged then sold within 24h). -/
def rule11Detect (e : EPCISEvent) (_ctx : Context) (st : List (String × Int)) :
    List (String × Int) × Option Alert :=
  let st1 :=
    if e.is_inspection && e.is_damaged && decide (e.action = .ADD) then
      e.epc_list.foldl (fun m epc => aupsert epc e.event_time m) st
    else st
  let hit :=
    if e.is_sold then
      e.epc_list.find? (fun epc =>
        match alookup epc st1 with
        | some t => decide (e.event_time - t < 24 * 3600)
        | none => false)
    else none
  match hit with
  | some epc =>
    (st1, some
      { alert_id := "R11_" ++ e.id, rule_id := 11
        rule_name := "Double Stock Deduction"
        severity := .Critical, timestamp := e.event_time
        epc := epc, location := some (pyOr e.get_location "unknown")
        description := "Item both marked damaged and sold, causing double stock deduction"
        details := [("damaged_at", .int ((alookup epc st1).getD 0)),
                    ("sold_at", .int e.event_time),
                    ("time_between_hours",
                      .rat (((e.event_time - (alookup epc st1).getD 0 : Int) : ℚ) / 3600)),
                    ("biz_step", .ostr e.biz_step)]
        event_id := some e.id })
  | none =>
    (st1.filter (fun kv => decide (kv.2 > e.event_time - 24 * 3600)), none)

/-- Rule 12: retail-sold disposition during cycle counting. -/
def rule12Detect (e : EPCISEvent) (_ctx : Context) : Option Alert :=
  if e.disposition = some dispRetailSold ∧ e.biz_step = some bizCycleCounting then
    match e.get_primary_epc, e.get_location with
    | some p, some l =>
      if p ≠ "" ∧ l ≠ "" then
        some
          { alert_id := "R12_" ++ e.id, rule_id := 12
            rule_name := "Retail Sold in Cycle Counting"
            severity := .High, timestamp := e.event_time
            epc := p, location := some l
            description := "Retail sold item detected during cycle counting"
            details := [("disposition", .str dispRetailSold),
                        ("biz_step", .str bizCycleCounting),
                        ("action", .str e.action.value)]
            event_id := some e.id }
      else none
    | _, _ => none
  else none

/-! ## Orchestrator (processor.py `EventProcessor`) -/

/-- The per-identifier state stored in `epc_current_state`. -/
structure ItemState where
  disposition : Option String
  location : Option String
  biz_step : Option String
  event_time : Int
  event_id : String
deriving DecidableEq, Repr

/-- The state the `_update_epc_history` loop stores for each EPC of an
event carrying a (truthy) disposition. -/
def mkItemState (e : EPCISEvent) : ItemState :=
  { disposition := e.disposition, location := e.get_location, biz_step := e.biz_step
    event_time := e.event_time, event_id := e.id }

/-- Full processor state: alert log, processed-event log, shared context,
tracker maps, and the private state of every stateful detector. -/
structure ProcState where
  alerts : List Alert := []
  processed_events : List EPCISEvent := []
  context : Context := {}
  epc_history : List (String × List EPCISEvent) := []
  epc_current_state : List (String × ItemState) := []
  r4_damaged_items : List (String × Rule4Info) := []
  r5 : Rule5State := {}
  r6_damaged_items : List String := []
  r9_sold_items : List String := []
  r10_damaged_events : List (String × EPCISEvent) := []
  r11_recently_damaged : List (String × Int) := []

/-- The processor's construction-time state (`EventProcessor.__init__`). -/
def initState : ProcState := {}

/-- The loop body of `_update_epc_history` over the two tracker maps:
append the event to each referenced EPC's history and, when the event
carries a truthy disposition, overwrite that EPC's current state. -/
def updateEpcMaps (e : EPCISEvent)
    (hm : List (String × List EPCISEvent)) (cm : List (String × ItemState)) :
    List (String × List EPCISEvent) × List (String × ItemState) :=
  e.epc_list.foldl
    (fun p epc =>
      (aupsert epc (((alookup epc p.1).getD []) ++ [e]) p.1,
       if otruthy e.disposition then aupsert epc (mkItemState e) p.2 else p.2))
    (hm, cm)

/-- `_update_epc_history`: mutates exactly the two tracker maps. -/
def updateEpcHistory (s : ProcState) (e : EPCISEvent) : ProcState :=
  { s with
    epc_history := (updateEpcMaps e s.epc_history s.epc_current_state).1
    epc_current_state := (updateEpcMaps e s.epc_history s.epc_current_state).2 }

/-- `get_previous_disposition`: the stored disposition, but only when the
stored event time is strictly earlier than the current event's. -/
def get_previous_disposition (s : ProcState) (epc : String) (e : EPCISEvent) :
    Option String :=
  match alookup epc s.epc_current_state with
  | none => none
  | some prev =>
    if prev.event_time < e.event_time then prev.disposition else none

/-- `_update_context`: mutate the shared context dict for this event.
Called on the state *after* `_update_epc_history`, as in `process_event`. -/
def updateContext (s : ProcState) (e : EPCISEvent) : Context :=
  let c := { s.context with is_bulk_operation := decide (e.epc_list.length > 1) }
  let c :=
    if e.is_sold then
      match e.biz_transaction_list.find? (fun b => decide (b.ttype = some bttInv)) with
      | some b => { c with transaction_id := b.value }
      | none => c
    else c
  match e.get_primary_epc with
  | some p =>
    if p ≠ "" then
      { c with previous_disposition := get_previous_disposition s p e, epc := some p }
    else c
  | none => c

/-- The alert-collection loop of `process_event`: detector results in
declared order, `None` contributing nothing. -/
def collectAlerts : List (Option Alert) → List Alert
  | [] => []
  | some a :: t => a :: collectAlerts t
  | none :: t => collectAlerts t

/-- A detector call as the orchestrator sees it: a produced alert, no
alert, or a raised exception (caught by the `try/except` in
`process_event`). -/
def runDetectorOutcomes : List (Except String (Option Alert)) → List Alert
  | [] => []
  | .ok (some a) :: t => a :: runDetectorOutcomes t
  | .ok none :: t => runDetectorOutcomes t
  | .error _ :: t => runDetectorOutcomes t

/-- `process_event`: update tracker, rebuild context, run the twelve
detectors in declared order, extend the alert and processed-event logs,
and return this event's alerts. -/
def processEvent (s : ProcState) (e : EPCISEvent) : ProcState × List Alert :=
  let s1 := updateEpcHistory s e
  let ctx := updateContext s1 e
  let a1 := rule1Detect e ctx
  let a2 := rule2Detect e ctx
  let a3 := rule3Detect e ctx
  let r4 := rule4Detect e ctx s1.r4_damaged_items
  let r5 := rule5Detect e ctx s1.r5
  let r6 := rule6Detect e ctx s1.r6_damaged_items
  let a7 := rule7Detect e ctx
  let a8 := rule8Detect e ctx
  let r9 := rule9Detect e ctx s1.r9_sold_items
  let r10 := rule10Detect e ctx s1.r10_damaged_events
  let r11 := rule11Detect e ctx s1.r11_recently_damaged
  let a12 := rule12Detect e ctx
  let alerts := collectAlerts
    [a1, a2, a3, r4.2, r5.2, r6.2, a7, a8, r9.2, r10.2, r11.2, a12]
  ({ s1 with
      context := ctx
      r4_damaged_items := r4.1
      r5 := r5.1
      r6_damaged_items := r6.1
      r9_sold_items := r9.1
      r10_damaged_events := r10.1
      r11_recently_damaged := r11.1
      alerts := s1.alerts ++ alerts
      processed_events := s1.processed_events ++ [e] },
    alerts)

/-- `process_events`: stream a list of events in order, accumulating all
alerts. -/
def processEvents (s : ProcState) : List EPCISEvent → ProcState × List Alert
  | [] => (s, [])
  | e :: t =>
    let r := processEvent s e
    let rest := processEvents r.1 t
    (rest.1, r.2 ++ rest.2)

/-! ## Derived run functions and scenario events used by the analysis -/

/-- A single detector evaluated over a stream (its private state evolves
exactly as inside the orchestrator, which hands each detector the event
and the shared context; rules 5 and 10 ignore the context). -/
def runRule5 (st : Rule5State) (es : List EPCISEvent) : Rule5State :=
  es.foldl (fun st e => (rule5Detect e {} st).1) st

/-- Whether an event is an inspection+damaged+ADD assignment that rule 5
counts at location `L` (truthy location required by the code). -/
def rule5QualifiesAt (L : String) (e : EPCISEvent) : Bool :=
  e.is_inspection && e.is_damaged && decide (e.action = .ADD) &&
    decide (e.get_location = some L) && decide (L ≠ "")

/-- Rule 10 evaluated over a stream, collecting its alerts. -/
def runRule10 (st : List (String × EPCISEvent)) :
    List EPCISEvent → List (String × EPCISEvent) × List Alert
  | [] => (st, [])
  | e :: t =>
    let r := rule10Detect e {} st
    let rest := runRule10 r.1 t
    (rest.1, (match r.2 with | some a => [a] | none => []) ++ rest.2)

/-- An inspection event marking item `X` damaged at location `loc`,
time `t` (scenario constructor). -/
def mkDamagedEvent (X loc : String) (t : Int) : EPCISEvent :=
  { id := "ev_damaged", action := .ADD, event_time := t
    disposition := some dispDamaged, biz_step := some bizInspecting
    biz_location := some loc, epc_list := [X] }

/-- A point-of-sale event selling item `X` at location `loc`, time `t`
(scenario constructor). -/
def mkSaleEvent (X loc : String) (t : Int) : EPCISEvent :=
  { id := "ev_sale", action := .OBSERVE, event_time := t
    disposition := some dispRetailSold, biz_step := some bizRetailSelling
    biz_location := some loc, epc_list := [X] }

/-- A receiving event giving item `X` a sellable disposition at time `t`
(scenario constructor). -/
def mkSellableEvent (X loc : String) (t : Int) : EPCISEvent :=
  { id := "ev_sellable", action := .ADD, event_time := t
    disposition := some dispSellableAccessible, biz_step := some bizReceiving
    biz_location := some loc, epc_list := [X] }

/-- A bare observation of item `X` carrying no disposition (scenario
constructor). -/
def mkPlainEvent (X loc : String) (t : Int) : EPCISEvent :=
  { id := "ev_plain", action := .OBSERVE, event_time := t
    biz_location := some loc, epc_list := [X] }

/-- A stock-mutation DELETE event for item `X` (scenario constructor). -/
def mkDeleteEvent (X loc : String) (t : Int) : EPCISEvent :=
  { id := "ev_delete", action := .DELETE, event_time := t
    biz_location := some loc, epc_list := [X] }

/-- A multi-item inspection event marking items `A` and `B` damaged
(used to probe the per-rule tracking maps). -/
def multiDamagedEvent : EPCISEvent :=
  { id := "ev_multi", action := .ADD, event_time := 0
    disposition := some dispDamaged, biz_step := some bizInspecting
    biz_location := some "loc1", epc_list := ["A", "B"] }

/-- A sale event whose business-transaction list names invoice "T1"
(used to probe context staleness). -/
def invoiceSaleEvent : EPCISEvent :=
  { id := "ev_invsale", action := .OBSERVE, event_time := 0
    biz_step := some bizRetailSelling, biz_location := some "loc1"
    epc_list := ["Y"]
    biz_transaction_list := [{ ttype := some bttInv, value := some "T1" }] }

/-- A concrete unresolved alert with id "A1" (alert-log scenarios). -/
def alertA1 : Alert :=
  { alert_id := "A1", rule_id := 6, rule_name := "Damaged Items Sold at POS"
    severity := .Critical, timestamp := 0, epc := "X", location := some "loc1"
    description := "Damaged item sold through point-of-sale" }

/-- A concrete unresolved alert with id "B1" (alert-log scenarios). -/
def alertB1 : Alert :=
  { alert_id := "B1", rule_id := 11, rule_name := "Double Stock Deduction"
    severity := .Critical, timestamp := 1, epc := "Y", location := some "loc1"
    description := "Item both marked damaged and sold, causing double stock deduction" }

/-- `get_unresolved_alerts`. -/
def getUnresolvedAlerts (l : List Alert) : List Alert :=
  l.filter (fun a => !a.resolved)

/-- `resolve_alert`: mark the first alert with the given id resolved, in
place, stamping the resolution time (`datetime.now()` abstracted to a
parameter); no-op when the id is unknown. -/
def resolveAlert (aid : String) (t : Int) : List Alert → List Alert
  | [] => []
  | a :: rest =>
    if a.alert_id = aid then { a with resolved := true, resolved_at := some t } :: rest
    else a :: resolveAlert aid t rest

/-! ## Association-list and set lemmas -/

theorem alookup_aupsert_self {α : Type} (k : String) (v : α) (l : List (String × α)) :
    alookup k (aupsert k v l) = some v := by
  induction l with
  | nil => simp [aupsert, alookup]
  | cons h t ih =>
    obtain ⟨k', v'⟩ := h
    by_cases hk : k = k' <;> simp [aupsert, alookup, hk, ih]

theorem alookup_aupsert_ne {α : Type} {k k' : String} (hne : k ≠ k') (v : α)
    (l : List (String × α)) : alookup k (aupsert k' v l) = alookup k l := by
  induction l with
  | nil => simp [aupsert, alookup, hne]
  | cons h t ih =>
    obtain ⟨k'', v''⟩ := h
    by_cases hk : k' = k''
    · subst hk; simp [aupsert, alookup, hne]
    · by_cases hx : k = k'' <;> simp [aupsert, alookup, hk, hx, ih]

theorem alookup_foldl_aupsert_const {α : Type} (v : α) (l : List String) :
    ∀ (m : List (String × α)) (x : String),
      (x ∈ l ∨ alookup x m = some v) →
      alookup x (l.foldl (fun m e => aupsert e v m) m) = some v := by
  induction l with
  | nil =>
    intro m x h
    rcases h with h | h
    · cases h
    · simpa using h
  | cons e t ih =>
    intro m x h
    simp only [List.foldl_cons]
    apply ih
    by_cases hx : x = e
    · subst hx; right; exact alookup_aupsert_self x v m
    · rcases h with h | h
      · rcases List.mem_cons.mp h with h' | h'
        · exact absurd h' hx
        · exact Or.inl h'
      · right; rw [alookup_aupsert_ne hx]; exact h

theorem alookup_none_aupsert_ne {α : Type} {x k : String} (hne : x ≠ k) (v : α)
    {m : List (String × α)} (h : alookup x m = none) :
    alookup x (aupsert k v m) = none := by
  rw [alookup_aupsert_ne hne]; exact h

theorem alookup_none_foldl_aupsert {α : Type} (v : α) (l : List String) :
    ∀ (m : List (String × α)) (x : String), x ∉ l → alookup x m = none →
      alookup x (l.foldl (fun m e => aupsert e v m) m) = none := by
  induction l with
  | nil => intro m x _ h; simpa using h
  | cons e t ih =>
    intro m x hx h
    simp only [List.foldl_cons]
    have hxe : x ≠ e := fun he => hx (he ▸ List.mem_cons_self e t)
    exact ih _ x (fun ht => hx (List.mem_cons_of_mem e ht))
      (alookup_none_aupsert_ne hxe v h)

theorem alookup_aerase_ne {α : Type} {x k : String} (hne : x ≠ k)
    (m : List (String × α)) : alookup x (aerase k m) = alookup x m := by
  induction m with
  | nil => simp [aerase]
  | cons h t ih =>
    obtain ⟨k', v'⟩ := h
    by_cases hk : k = k'
    · subst hk; simp [aerase, alookup, hne]
    · by_cases hx : x = k' <;> simp [aerase, alookup, hk, hx, ih]

theorem alookup_none_aerase {α : Type} (k : String) {x : String}
    {m : List (String × α)} (h : alookup x m = none) :
    alookup x (aerase k m) = none := by
  induction m with
  | nil => simpa [aerase] using h
  | cons hd t ih =>
    obtain ⟨k', v'⟩ := hd
    by_cases hx : x = k'
    · rw [hx] at h; simp [alookup] at h
    · simp only [alookup, if_neg hx] at h
      by_cases hk : k = k'
      · simp [aerase, hk, h]
      · simp [aerase, hk, alookup, hx, ih h]

theorem alookup_eq_none_of_not_mem_keys {α : Type} {x : String} :
    ∀ {m : List (String × α)}, x ∉ m.map Prod.fst → alookup x m = none := by
  intro m
  induction m with
  | nil => intro _; simp [alookup]
  | cons hd t ih =>
    intro h
    obtain ⟨k', v'⟩ := hd
    simp only [List.map_cons, List.mem_cons, not_or] at h
    simp [alookup, h.1, ih h.2]

theorem alookup_aerase_self_of_nodup {α : Type} (x : String) :
    ∀ (m : List (String × α)), (m.map Prod.fst).Nodup →
      alookup x (aerase x m) = none := by
  intro m
  induction m with
  | nil => intro _; simp [aerase, alookup]
  | cons hd t ih =>
    intro hnd
    obtain ⟨k', v'⟩ := hd
    simp only [List.map_cons, List.nodup_cons] at hnd
    by_cases hx : x = k'
    · rw [hx]
      simp only [aerase, if_pos rfl]
      exact alookup_eq_none_of_not_mem_keys (hx ▸ hnd.1)
    · simp only [aerase, if_neg hx, alookup]
      exact ih hnd.2

theorem alookup_filter_of_holds {α : Type} (p : String × α → Bool) (x : String) (v : α) :
    ∀ m : List (String × α), alookup x m = some v → p (x, v) = true →
      alookup x (m.filter p) = some v := by
  intro m
  induction m with
  | nil => intro h _; simp [alookup] at h
  | cons hd t ih =>
    intro h hp
    obtain ⟨k', v'⟩ := hd
    by_cases hx : x = k'
    · simp only [alookup, if_pos hx, Option.some.injEq] at h
      subst h
      rw [List.filter_cons]
      have hpk : p (k', v') = true := by rw [← hx]; exact hp
      simp [hpk, alookup, hx]
    · simp only [alookup, if_neg hx] at h
      rw [List.filter_cons]
      by_cases hkeep : p (k', v') = true
      · simp [hkeep, alookup, hx, ih h hp]
      · simp only [Bool.not_eq_true] at hkeep
        simp [hkeep, ih h hp]

theorem elemStr_iff (x : String) : ∀ l : List String, elemStr x l = true ↔ x ∈ l := by
  intro l
  induction l with
  | nil => simp [elemStr]
  | cons y t ih =>
    by_cases hx : x = y
    · rw [hx]; simp [elemStr]
    · simp [elemStr, hx, ih]

theorem mem_addToSet {x y : String} {s : List String} :
    x ∈ addToSet s y ↔ x = y ∨ x ∈ s := by
  unfold addToSet
  by_cases hin : elemStr y s = true
  · rw [if_pos hin]
    rw [elemStr_iff] at hin
    constructor
    · exact Or.inr
    · rintro (h | h)
      · exact h ▸ hin
      · exact h
  · simp only [Bool.not_eq_true] at hin
    rw [hin]
    simp only [Bool.false_eq_true, if_false, List.mem_append, List.mem_singleton]
    exact Or.comm

theorem mem_foldl_addToSet (l : List String) :
    ∀ (s : List String) (x : String), (x ∈ l ∨ x ∈ s) → x ∈ l.foldl addToSet s := by
  induction l with
  | nil =>
    intro s x h
    rcases h with h | h
    · cases h
    · exact h
  | cons e t ih =>
    intro s x h
    simp only [List.foldl_cons]
    apply ih
    by_cases hx : x = e
    · exact Or.inr (mem_addToSet.mpr (Or.inl hx))
    · rcases h with h | h
      · rcases List.mem_cons.mp h with h' | h'
        · exact absurd h' hx
        · exact Or.inl h'
      · exact Or.inr (mem_addToSet.mpr (Or.inr h))

theorem elemStr_foldl_addToSet {l s : List String} {x : String}
    (h : x ∈ l ∨ elemStr x s = true) : elemStr x (l.foldl addToSet s) = true := by
  rw [elemStr_iff]
  apply mem_foldl_addToSet
  rcases h with h | h
  · exact Or.inl h
  · exact Or.inr ((elemStr_iff x s).mp h)

theorem alookup_isSome_of_mem {α : Type} {k : String} {v : α} :
    ∀ {l : List (String × α)}, (k, v) ∈ l → (alookup k l).isSome := by
  intro l
  induction l with
  | nil => intro h; cases h
  | cons hd t ih =>
    intro h
    obtain ⟨k', v'⟩ := hd
    rcases List.mem_cons.mp h with h' | h'
    · injection h' with hk hv
      simp [alookup, hk]
    · by_cases hk : k = k'
      · simp [alookup, hk]
      · simp only [alookup, if_neg hk]
        exact ih h'

/-! ## Scan and collection lemmas -/

theorem rule10Scan_eq_find (now : Int) :
    ∀ l : List (String × EPCISEvent),
      rule10Scan now l = l.find? (fun kv => decide (now - kv.2.event_time > 30 * 60)) := by
  intro l
  induction l with
  | nil => simp [rule10Scan]
  | cons hd t ih =>
    obtain ⟨k, d⟩ := hd
    simp only [rule10Scan, List.find?_cons]
    by_cases h : now - d.event_time > 30 * 60
    · rw [if_pos h, decide_eq_true h]
    · rw [if_neg h, decide_eq_false h]; exact ih

theorem rule10Scan_mem (now : Int) :
    ∀ {l : List (String × EPCISEvent)} {kv : String × EPCISEvent},
      rule10Scan now l = some kv → kv ∈ l := by
  intro l
  induction l with
  | nil => intro kv h; simp [rule10Scan] at h
  | cons hd t ih =>
    intro kv h
    obtain ⟨k, d⟩ := hd
    by_cases hs : now - d.event_time > 30 * 60
    · simp only [rule10Scan, if_pos hs, Option.some.injEq] at h
      exact h ▸ List.mem_cons_self _ _
    · simp only [rule10Scan, if_neg hs] at h
      exact List.mem_cons_of_mem _ (ih h)

theorem mem_collectAlerts {a : Alert} :
    ∀ {opts : List (Option Alert)}, a ∈ collectAlerts opts → some a ∈ opts := by
  intro opts
  induction opts with
  | nil => intro h; simp [collectAlerts] at h
  | cons hd t ih =>
    intro h
    cases hd with
    | none =>
      simp only [collectAlerts] at h
      exact List.mem_cons_of_mem _ (ih h)
    | some b =>
      simp only [collectAlerts, List.mem_cons] at h
      rcases h with h | h
      · exact h ▸ List.mem_cons_self _ _
      · exact List.mem_cons_of_mem _ (ih h)

theorem runDetectorOutcomes_append :
    ∀ l1 l2 : List (Except String (Option Alert)),
      runDetectorOutcomes (l1 ++ l2) =
        runDetectorOutcomes l1 ++ runDetectorOutcomes l2 := by
  intro l1 l2
  induction l1 with
  | nil => simp [runDetectorOutcomes]
  | cons hd t ih =>
    cases hd with
    | error err => simp [runDetectorOutcomes, ih]
    | ok o => cases o <;> simp [runDetectorOutcomes, ih]

theorem runDetectorOutcomes_map_ok :
    ∀ opts : List (Option Alert),
      runDetectorOutcomes (opts.map Except.ok) = collectAlerts opts := by
  intro opts
  induction opts with
  | nil => simp [runDetectorOutcomes, collectAlerts]
  | cons hd t ih => cases hd <;> simp [runDetectorOutcomes, collectAlerts, ih]

/-! ## Tracker and context lemmas -/

theorem updateEpcMaps_foldl_snd (e : EPCISEvent) :
    ∀ (l : List String) (p : List (String × List EPCISEvent) × List (String × ItemState)),
      (l.foldl
        (fun p epc =>
          (aupsert epc (((alookup epc p.1).getD []) ++ [e]) p.1,
           if otruthy e.disposition then aupsert epc (mkItemState e) p.2 else p.2)) p).2 =
      if otruthy e.disposition = true then
        l.foldl (fun m x => aupsert x (mkItemState e) m) p.2
      else p.2 := by
  intro l
  induction l with
  | nil => intro p; by_cases ht : otruthy e.disposition = true <;> simp [ht]
  | cons x t ih =>
    intro p
    simp only [List.foldl_cons]
    rw [ih]
    by_cases ht : otruthy e.disposition = true <;> simp [ht]

theorem updateEpcMaps_snd (e : EPCISEvent) (hm : List (String × List EPCISEvent))
    (cm : List (String × ItemState)) :
    (updateEpcMaps e hm cm).2 =
      if otruthy e.disposition = true then
        e.epc_list.foldl (fun m x => aupsert x (mkItemState e) m) cm
      else cm := by
  unfold updateEpcMaps
  exact updateEpcMaps_foldl_snd e e.epc_list (hm, cm)

theorem updateContext_location_mapper (s : ProcState) (e : EPCISEvent) :
    (updateContext s e).location_mapper = s.context.location_mapper := by
  unfold updateContext
  repeat' split
  all_goals rfl

theorem updateContext_is_bulk (s : ProcState) (e : EPCISEvent) :
    (updateContext s e).is_bulk_operation = decide (e.epc_list.length > 1) := by
  unfold updateContext
  repeat' split
  all_goals rfl

/-! ## Claim C1 -/

/-- C1: the claimed capture-before-merge invariant fails on the code.
After an earlier event records item "X" as damaged, processing a later
event for "X" that carries a different disposition hands the detectors a
`previous_disposition` of `none` instead of the damaged state recorded
strictly before: `process_event` merges the current event into
`epc_current_state` *before* `_update_context` reads it, and the
`event_time <` guard in `get_previous_disposition` then rejects the
freshly overwritten entry. -/
theorem c1_previous_disposition_lost :
    (alookup "X"
        ((processEvent initState (mkDamagedEvent "X" "loc1" 0)).1.epc_current_state)).map
        ItemState.disposition = some (some dispDamaged) ∧
    ((processEvent (processEvent initState (mkDamagedEvent "X" "loc1" 0)).1
        (mkSellableEvent "X" "loc1" 100)).1.context.previous_disposition = none) := by
  constructor <;> decide

/-! ## Claim C3 -/

/-- C3: per-detector fault isolation in `process_event`.  A faulting
detector call yields exactly the alerts an alert-less call would yield;
removing it leaves every other detector's contribution, in order, intact;
the `try/except` loop over ok outcomes is exactly the alert collection of
the concrete `processEvent`; and `process_event` always completes,
extending the alert log by exactly this event's alerts and the
processed-event log by exactly this event. -/
theorem c3_detector_fault_isolated :
    (∀ (pre post : List (Except String (Option Alert))) (err : String),
      runDetectorOutcomes (pre ++ .error err :: post) =
        runDetectorOutcomes (pre ++ .ok none :: post)) ∧
    (∀ (pre post : List (Except String (Option Alert))) (err : String) (a : Alert),
      runDetectorOutcomes (pre ++ .error err :: post) =
        runDetectorOutcomes pre ++ runDetectorOutcomes post ∧
      runDetectorOutcomes (pre ++ .ok (some a) :: post) =
        runDetectorOutcomes pre ++ a :: runDetectorOutcomes post) ∧
    (∀ opts : List (Option Alert),
      runDetectorOutcomes (opts.map Except.ok) = collectAlerts opts) ∧
    (∀ (s : ProcState) (e : EPCISEvent),
      (processEvent s e).1.alerts = s.alerts ++ (processEvent s e).2 ∧
      (processEvent s e).1.processed_events = s.processed_events ++ [e]) := by
  refine ⟨?_, ?_, runDetectorOutcomes_map_ok, ?_⟩
  · intro pre post err
    rw [runDetectorOutcomes_append, runDetectorOutcomes_append]
    rfl
  · intro pre post err a
    constructor
    · rw [runDetectorOutcomes_append]
      rfl
    · rw [runDetectorOutcomes_append]
      rfl
  · intro s e
    constructor <;> rfl

/-! ## Claim C7 -/

/-- C7 fails as stated: the shared context is a persistent dict, so
`transaction_id` survives into later events.  After a sale carrying
invoice "T1", a later event with an empty business-transaction list still
sees `transaction_id = "T1"` in the context handed to its detectors,
where the claim demands it be absent. -/
theorem c7_counterexample :
    (mkPlainEvent "Z" "loc1" 10).biz_transaction_list = [] ∧
    ((processEvent (processEvent initState invoiceSaleEvent).1
        (mkPlainEvent "Z" "loc1" 10)).1.context.transaction_id = some "T1") ∧
    ¬ ((processEvent (processEvent initState invoiceSaleEvent).1
        (mkPlainEvent "Z" "loc1" 10)).1.context.transaction_id = none) := by
  refine ⟨rfl, ?_, ?_⟩ <;> decide

/-- C7 amended: the context's bulk flag is true iff the event's
affected-identifier list has more than one entry, as claimed; but the
transaction id is only *rewritten* when the current event is a sale whose
business-transaction list contains an invoice-typed entry (taking that
first entry's value) — for any other event it retains its previous value
(initially absent), so it can reflect transaction entries of earlier
events. -/
theorem c7_context_amended (s : ProcState) (e : EPCISEvent) :
    (updateContext s e).is_bulk_operation = decide (e.epc_list.length > 1) ∧
    (e.is_sold = true →
      (∀ b, e.biz_transaction_list.find? (fun b => decide (b.ttype = some bttInv)) = some b →
        (updateContext s e).transaction_id = b.value) ∧
      (e.biz_transaction_list.find? (fun b => decide (b.ttype = some bttInv)) = none →
        (updateContext s e).transaction_id = s.context.transaction_id)) ∧
    (e.is_sold = false →
      (updateContext s e).transaction_id = s.context.transaction_id) := by
  refine ⟨updateContext_is_bulk s e, ?_, ?_⟩
  · intro hs
    constructor
    · intro b hb
      unfold updateContext
      simp only [hs, hb]
      repeat' split
      all_goals simp_all
    · intro hfind
      unfold updateContext
      simp only [hs, hfind]
      repeat' split
      all_goals simp_all
  · intro hs
    unfold updateContext
    simp only [hs]
    repeat' split
    all_goals simp_all

/-- C7 witness: the amended characterization evaluated on the concrete
invoice-carrying sale event. -/
theorem c7_witness :
    invoiceSaleEvent.is_sold = true ∧
    invoiceSaleEvent.biz_transaction_list.find?
      (fun b => decide (b.ttype = some bttInv)) = some ⟨some bttInv, some "T1"⟩ ∧
    (updateContext initState invoiceSaleEvent).transaction_id = some "T1" := by
  refine ⟨by decide, by decide, ?_⟩
  exact ((c7_context_amended initState invoiceSaleEvent).2.1 (by decide)).1
    ⟨some bttInv, some "T1"⟩ (by decide)

/-! ## Claim C8 -/

/-- C8 fails as stated: an event carrying no disposition does not
overwrite the stored per-identifier state.  After item "X" is recorded
damaged, a later disposition-less event referencing "X" leaves the stored
state built from the earlier event, where the claim demands the stored
state be built from the later event. -/
theorem c8_counterexample :
    (alookup "X"
        ((processEvent (processEvent initState (mkDamagedEvent "X" "loc1" 0)).1
          (mkPlainEvent "X" "loc2" 50)).1.epc_current_state) =
      some (mkItemState (mkDamagedEvent "X" "loc1" 0))) ∧
    ¬ (alookup "X"
        ((processEvent (processEvent initState (mkDamagedEvent "X" "loc1" 0)).1
          (mkPlainEvent "X" "loc2" 50)).1.epc_current_state) =
      some (mkItemState (mkPlainEvent "X" "loc2" 50))) := by
  constructor <;> decide

/-- Shared helper: an event with a truthy disposition overwrites the
stored state of every identifier it references. -/
theorem alookup_updateEpcHistory_of_disp (s : ProcState) (e : EPCISEvent)
    (ht : otruthy e.disposition = true) {x : String} (hx : x ∈ e.epc_list) :
    alookup x (updateEpcHistory s e).epc_current_state = some (mkItemState e) := by
  show alookup x (updateEpcMaps e s.epc_history s.epc_current_state).2 = _
  rw [updateEpcMaps_snd, if_pos ht]
  exact alookup_foldl_aupsert_const _ _ _ _ (Or.inl hx)

/-- C8 amended: for every event *carrying a truthy disposition*, the
Tracker overwrites the stored state of every identifier in the event's
list with the state built from that event's disposition, location,
business step, time and id — in arrival order, regardless of the
event-time field; an event without a disposition leaves the stored state
map untouched. -/
theorem c8_tracker_overwrite_amended (s : ProcState) (e : EPCISEvent) :
    (otruthy e.disposition = true →
      ∀ x ∈ e.epc_list,
        alookup x (updateEpcHistory s e).epc_current_state = some (mkItemState e)) ∧
    (otruthy e.disposition = false →
      (updateEpcHistory s e).epc_current_state = s.epc_current_state) := by
  constructor
  · intro ht x hx
    exact alookup_updateEpcHistory_of_disp s e ht hx
  · intro ht
    show (updateEpcMaps e s.epc_history s.epc_current_state).2 = _
    rw [updateEpcMaps_snd, if_neg (by simp [ht])]

/-- C8 witness: the amended overwrite property evaluated on a concrete
damaged event, and the no-disposition case on a concrete plain event. -/
theorem c8_witness :
    otruthy (mkDamagedEvent "X" "loc1" 0).disposition = true ∧
    alookup "X" (updateEpcHistory initState (mkDamagedEvent "X" "loc1" 0)).epc_current_state
      = some (mkItemState (mkDamagedEvent "X" "loc1" 0)) ∧
    (updateEpcHistory initState (mkPlainEvent "X" "loc2" 50)).epc_current_state
      = initState.epc_current_state := by
  refine ⟨by decide, ?_, ?_⟩
  · exact (c8_tracker_overwrite_amended initState (mkDamagedEvent "X" "loc1" 0)).1
      (by decide) "X" (by decide)
  · exact (c8_tracker_overwrite_amended initState (mkPlainEvent "X" "loc2" 50)).2
      (by decide)

/-! ## Claim C9 -/

/-- C9: `resolve_alert` on an unknown id is a no-op on the alert log; on a
known id it marks exactly the first alert bearing that id resolved (with
the resolution timestamp), leaves every other alert's fields unchanged,
and a subsequent `get_unresolved_alerts` excludes exactly that alert and
no other. -/
theorem c9_resolve_alert (aid : String) (t : Int) :
    (∀ l : List Alert, (∀ a ∈ l, a.alert_id ≠ aid) → resolveAlert aid t l = l) ∧
    (∀ (pre post : List Alert) (a : Alert), a.alert_id = aid →
      (∀ b ∈ pre, b.alert_id ≠ aid) →
      resolveAlert aid t (pre ++ a :: post) =
        pre ++ { a with resolved := true, resolved_at := some t } :: post ∧
      getUnresolvedAlerts (resolveAlert aid t (pre ++ a :: post)) =
        getUnresolvedAlerts pre ++ getUnresolvedAlerts post ∧
      getUnresolvedAlerts (pre ++ a :: post) =
        getUnresolvedAlerts pre ++ (if a.resolved then [] else [a]) ++
          getUnresolvedAlerts post) := by
  have hres : ∀ (pre post : List Alert) (a : Alert), a.alert_id = aid →
      (∀ b ∈ pre, b.alert_id ≠ aid) →
      resolveAlert aid t (pre ++ a :: post) =
        pre ++ { a with resolved := true, resolved_at := some t } :: post := by
    intro pre post a ha hpre
    induction pre with
    | nil => simp [resolveAlert, ha]
    | cons b pre' ih =>
      have hb : b.alert_id ≠ aid := hpre b (List.mem_cons_self b pre')
      simp only [List.cons_append, resolveAlert, if_neg hb, List.append_eq]
      rw [ih (fun b' hb' => hpre b' (List.mem_cons_of_mem b hb'))]
  constructor
  · intro l h
    induction l with
    | nil => rfl
    | cons a rest ih =>
      have ha : a.alert_id ≠ aid := h a (List.mem_cons_self a rest)
      simp only [resolveAlert, if_neg ha]
      rw [ih (fun b hb => h b (List.mem_cons_of_mem a hb))]
  · intro pre post a ha hpre
    refine ⟨hres pre post a ha hpre, ?_, ?_⟩
    · rw [hres pre post a ha hpre]
      simp [getUnresolvedAlerts, List.filter_append]
    · simp only [getUnresolvedAlerts, List.filter_append, List.filter_cons]
      by_cases hr : a.resolved = true
      · simp [hr]
      · simp only [Bool.not_eq_true] at hr
        simp [hr]

/-- C9 witness: resolving id "A1" in a two-alert log marks exactly the
"A1" alert resolved and the unresolved query then returns exactly the
other alert. -/
theorem c9_witness :
    resolveAlert "A1" 5 [alertB1, alertA1] =
      [alertB1, { alertA1 with resolved := true, resolved_at := some 5 }] ∧
    getUnresolvedAlerts (resolveAlert "A1" 5 [alertB1, alertA1]) = [alertB1] := by
  have h := (c9_resolve_alert "A1" 5).2 [alertB1] [] alertA1 (by decide)
    (by intro b hb; simp at hb; rw [hb]; decide)
  refine ⟨by simpa using h.1, ?_⟩
  have h2 := h.2.1
  simpa [getUnresolvedAlerts, alertB1] using h2

/-! ## Claim C10 -/

theorem rule1_rule_id {e : EPCISEvent} {ctx : Context} {a : Alert}
    (h : rule1Detect e ctx = some a) : a.rule_id = 1 := by
  unfold rule1Detect at h
  repeat' split at h
  all_goals (try simp_all)
  all_goals (try (obtain ⟨h1, h⟩ := h))
  all_goals (try (cases h))
  all_goals rfl

theorem rule2_rule_id {e : EPCISEvent} {ctx : Context} {a : Alert}
    (h : rule2Detect e ctx = some a) : a.rule_id = 2 := by
  unfold rule2Detect at h
  repeat' split at h
  all_goals (try simp_all)
  all_goals (try (obtain ⟨h1, h⟩ := h))
  all_goals (try (cases h))
  all_goals rfl

theorem rule3_rule_id {e : EPCISEvent} {ctx : Context} {a : Alert}
    (h : rule3Detect e ctx = some a) : a.rule_id = 3 := by
  unfold rule3Detect at h
  repeat' split at h
  all_goals (try simp_all)
  all_goals (try (obtain ⟨h1, h⟩ := h))
  all_goals (try (cases h))
  all_goals rfl

theorem rule4_rule_id {e : EPCISEvent} {ctx : Context} {st : List (String × Rule4Info)}
    {a : Alert} (h : (rule4Detect e ctx st).2 = some a) : a.rule_id = 4 := by
  rcases hres : rule4Detect e ctx st with ⟨st2, res⟩
  rw [hres] at h
  dsimp only at h
  unfold rule4Detect at hres
  dsimp only at hres
  repeat' split at hres
  all_goals (injection hres with h1 h2)
  all_goals (subst h2)
  all_goals (first | (injection h with h3; cases h3; rfl) | (injection h))

theorem rule5_rule_id {e : EPCISEvent} {ctx : Context} {st : Rule5State}
    {a : Alert} (h : (rule5Detect e ctx st).2 = some a) : a.rule_id = 5 := by
  rcases hres : rule5Detect e ctx st with ⟨st2, res⟩
  rw [hres] at h
  dsimp only at h
  unfold rule5Detect at hres
  dsimp only at hres
  repeat' split at hres
  all_goals (injection hres with h1 h2)
  all_goals (subst h2)
  all_goals (first | (injection h with h3; cases h3; rfl) | (injection h))

theorem rule6_rule_id {e : EPCISEvent} {ctx : Context} {st : List String}
    {a : Alert} (h : (rule6Detect e ctx st).2 = some a) : a.rule_id = 6 := by
  rcases hres : rule6Detect e ctx st with ⟨st2, res⟩
  rw [hres] at h
  dsimp only at h
  unfold rule6Detect at hres
  dsimp only at hres
  repeat' split at hres
  all_goals (injection hres with h1 h2)
  all_goals (subst h2)
  all_goals (first | (injection h with h3; cases h3; rfl) | (injection h))

theorem rule9_rule_id {e : EPCISEvent} {ctx : Context} {st : List String}
    {a : Alert} (h : (rule9Detect e ctx st).2 = some a) : a.rule_id = 9 := by
  rcases hres : rule9Detect e ctx st with ⟨st2, res⟩
  rw [hres] at h
  dsimp only at h
  unfold rule9Detect at hres
  dsimp only at hres
  repeat' split at hres
  all_goals (injection hres with h1 h2)
  all_goals (subst h2)
  all_goals (first | (injection h with h3; cases h3; rfl) | (injection h))

theorem rule10_rule_id {e : EPCISEvent} {ctx : Context}
    {st : List (String × EPCISEvent)} {a : Alert}
    (h : (rule10Detect e ctx st).2 = some a) : a.rule_id = 10 := by
  rcases hres : rule10Detect e ctx st with ⟨st2, res⟩
  rw [hres] at h
  dsimp only at h
  unfold rule10Detect at hres
  dsimp only at hres
  repeat' split at hres
  all_goals (injection hres with h1 h2)
  all_goals (subst h2)
  all_goals (first | (injection h with h3; cases h3; rfl) | (injection h))

theorem rule11_rule_id {e : EPCISEvent} {ctx : Context} {st : List (String × Int)}
    {a : Alert} (h : (rule11Detect e ctx st).2 = some a) : a.rule_id = 11 := by
  rcases hres : rule11Detect e ctx st with ⟨st2, res⟩
  rw [hres] at h
  dsimp only at h
  unfold rule11Detect at hres
  dsimp only at hres
  repeat' split at hres
  all_goals (injection hres with h1 h2)
  all_goals (subst h2)
  all_goals (first | (injection h with h3; cases h3; rfl) | (injection h))

theorem rule12_rule_id {e : EPCISEvent} {ctx : Context} {a : Alert}
    (h : rule12Detect e ctx = some a) : a.rule_id = 12 := by
  unfold rule12Detect at h
  repeat' split at h
  all_goals (try simp_all)
  all_goals (try (obtain ⟨h1, h⟩ := h))
  all_goals (try (cases h))
  all_goals rfl

theorem rule7_none_of_no_mapper {e : EPCISEvent} {ctx : Context}
    (h : ctx.location_mapper = none) : rule7Detect e ctx = none := by
  unfold rule7Detect
  repeat' split
  all_goals simp_all

theorem rule8_none_of_no_mapper {e : EPCISEvent} {ctx : Context}
    (h : ctx.location_mapper = none) : rule8Detect e ctx = none := by
  unfold rule8Detect
  repeat' split
  all_goals simp_all

theorem processEvent_ctx_mapper (s : ProcState) (e : EPCISEvent) :
    (processEvent s e).1.context.location_mapper = s.context.location_mapper := by
  show (updateContext (updateEpcHistory s e) e).location_mapper = _
  rw [updateContext_location_mapper]
  rfl

theorem processEvent_no_rule78 (s : ProcState) (e : EPCISEvent)
    (hm : s.context.location_mapper = none) :
    ∀ a ∈ (processEvent s e).2, a.rule_id ≠ 7 ∧ a.rule_id ≠ 8 := by
  intro a ha
  have hctx : (updateContext (updateEpcHistory s e) e).location_mapper = none := by
    rw [updateContext_location_mapper]; exact hm
  have hmem := mem_collectAlerts ha
  simp only [List.mem_cons, List.not_mem_nil, or_false] at hmem
  rcases hmem with h | h | h | h | h | h | h | h | h | h | h | h
  · rw [rule1_rule_id h.symm]; exact ⟨by omega, by omega⟩
  · rw [rule2_rule_id h.symm]; exact ⟨by omega, by omega⟩
  · rw [rule3_rule_id h.symm]; exact ⟨by omega, by omega⟩
  · rw [rule4_rule_id h.symm]; exact ⟨by omega, by omega⟩
  · rw [rule5_rule_id h.symm]; exact ⟨by omega, by omega⟩
  · rw [rule6_rule_id h.symm]; exact ⟨by omega, by omega⟩
  · rw [rule7_none_of_no_mapper hctx] at h; cases h
  · rw [rule8_none_of_no_mapper hctx] at h; cases h
  · rw [rule9_rule_id h.symm]; exact ⟨by omega, by omega⟩
  · rw [rule10_rule_id h.symm]; exact ⟨by omega, by omega⟩
  · rw [rule11_rule_id h.symm]; exact ⟨by omega, by omega⟩
  · rw [rule12_rule_id h.symm]; exact ⟨by omega, by omega⟩

theorem processEvents_no_rule78 (es : List EPCISEvent) :
    ∀ s : ProcState, s.context.location_mapper = none →
      ((processEvents s es).2).all
        (fun a => decide (a.rule_id ≠ 7) && decide (a.rule_id ≠ 8)) = true := by
  induction es with
  | nil => intro s _; rfl
  | cons e t ih =>
    intro s hm
    simp only [processEvents, List.all_append, Bool.and_eq_true]
    constructor
    · rw [List.all_eq_true]
      intro a ha
      have := processEvent_no_rule78 s e hm a ha
      simp [this.1, this.2]
    · exact ih (processEvent s e).1 (by rw [processEvent_ctx_mapper]; exact hm)

/-- C10: processed through the orchestrator, rules 7 and 8 never produce
an alert: `_update_context` writes only the bulk flag, transaction id,
previous disposition and primary EPC, never a sublocation classifier
under `"location_mapper"`, so from the initial processor state both rules
always take their collaborator-absent no-op branch, over every event
sequence. -/
theorem c10_rules_7_8_never_fire (es : List EPCISEvent) :
    ((processEvents initState es).2).all
      (fun a => decide (a.rule_id ≠ 7) && decide (a.rule_id ≠ 8)) = true :=
  processEvents_no_rule78 es initState rfl

/-! ## Claim C2 -/

theorem head?_mem {α : Type} {l : List α} {x : α} (h : l.head? = some x) : x ∈ l := by
  cases l with
  | nil => simp at h
  | cons y t =>
    simp only [List.head?_cons, Option.some.injEq] at h
    rw [← h]
    exact List.mem_cons_self y t

theorem updateContext_prev_of_primary (s : ProcState) (e : EPCISEvent) {p : String}
    (hp : e.get_primary_epc = some p) (hpne : p ≠ "") :
    (updateContext s e).previous_disposition = get_previous_disposition s p e := by
  unfold updateContext
  simp only [hp]
  rw [if_pos hpne]

theorem get_previous_disposition_none_of_current (s : ProcState) (e : EPCISEvent)
    {p : String} (hlook : alookup p s.epc_current_state = some (mkItemState e)) :
    get_previous_disposition s p e = none := by
  unfold get_previous_disposition
  rw [hlook]
  simp [mkItemState]

/-- The helper fact driving rules 6/10/11 tracking for damaged events: an
inspection+damaged+ADD event is never simultaneously a sale. -/
theorem damaged_not_sold {e : EPCISEvent} (hd : e.is_damaged = true) :
    e.is_inspection = true → e.is_sold = false := by
  intro hi
  have hdisp : e.disposition = some dispDamaged :=
    of_decide_eq_true hd
  have hbiz : e.biz_step = some bizInspecting :=
    of_decide_eq_true hi
  unfold EPCISEvent.is_sold
  rw [hdisp, hbiz]
  decide

/-- Rule 6's state after a damaged+ADD event that is not a sale: every
event identifier is added to the set, and the discard branch is inert
(either the context's previous disposition is absent, or the primary
identifier is falsy so the discard is skipped). -/
theorem rule6_state_of_damaged_not_sold (e : EPCISEvent) (ctx : Context) (st : List String)
    (hg : (e.is_damaged && decide (e.action = EPCISAction.ADD)) = true)
    (hsold : e.is_sold = false)
    (hinert : ctx.previous_disposition = none ∨ e.get_primary_epc = none ∨
      e.get_primary_epc = some "") :
    (rule6Detect e ctx st).1 = e.epc_list.foldl addToSet st := by
  unfold rule6Detect
  cases hpv : ctx.previous_disposition with
  | none => simp [hg, hsold, hpv]
  | some prev =>
    rcases hinert with hcontra | hp | hp
    · rw [hpv] at hcontra; cases hcontra
    · simp only [hg, hsold, hp]
      split <;> simp_all
    · simp only [hg, hsold, hp]
      split <;> simp_all

/-- Core tracking fact shared by several analyses: what each detector's
map holds immediately after an inspection+damaged+ADD event. -/
theorem processEvent_damaged_tracking_core (s : ProcState) (e : EPCISEvent)
    (hi : e.is_inspection = true) (hd : e.is_damaged = true)
    (ha : e.action = EPCISAction.ADD) :
    (∀ x ∈ e.epc_list,
      elemStr x (processEvent s e).1.r6_damaged_items = true ∧
      alookup x (processEvent s e).1.r10_damaged_events = some e ∧
      alookup x (processEvent s e).1.r11_recently_damaged = some e.event_time) ∧
    (∀ p, e.get_primary_epc = some p → p ≠ "" →
      (alookup p (processEvent s e).1.r4_damaged_items).isSome = true) ∧
    (processEvent s e).1.r9_sold_items = s.r9_sold_items := by
  have hdisp : e.disposition = some dispDamaged := of_decide_eq_true hd
  have ht : otruthy e.disposition = true := by rw [hdisp]; decide
  have hsold : e.is_sold = false := damaged_not_sold hd hi
  have hg : (e.is_damaged && decide (e.action = EPCISAction.ADD)) = true := by
    simp [hd, ha]
  have hg3 : (e.is_inspection && e.is_damaged && decide (e.action = EPCISAction.ADD))
      = true := by simp [hi, hd, ha]
  have hndel : decide (e.action = EPCISAction.DELETE) = false := by
    rw [ha]; decide
  have hnobs : decide (e.action = EPCISAction.OBSERVE) = false := by
    rw [ha]; decide
  -- the context the detectors receive, and the fact that its previous
  -- disposition is `none` whenever the primary identifier is truthy
  have hprev : ∀ p, e.get_primary_epc = some p → p ≠ "" →
      (updateContext (updateEpcHistory s e) e).previous_disposition = none := by
    intro p hp hpne
    rw [updateContext_prev_of_primary _ _ hp hpne]
    apply get_previous_disposition_none_of_current
    exact alookup_updateEpcHistory_of_disp s e ht (head?_mem hp)
  refine ⟨?_, ?_, ?_⟩
  · intro x hx
    refine ⟨?_, ?_, ?_⟩
    · -- rule 6: all identifiers added; the discard branch is inert
      show elemStr x (rule6Detect e (updateContext (updateEpcHistory s e) e)
        s.r6_damaged_items).1 = true
      have hinert : (updateContext (updateEpcHistory s e) e).previous_disposition = none ∨
          e.get_primary_epc = none ∨ e.get_primary_epc = some "" := by
        rcases hp : e.get_primary_epc with _ | p
        · exact Or.inr (Or.inl rfl)
        · by_cases hpne : p = ""
          · refine Or.inr (Or.inr ?_)
            rw [← hpne]
          · exact Or.inl (hprev p hp hpne)
      rw [rule6_state_of_damaged_not_sold e _ _ hg hsold hinert]
      exact elemStr_foldl_addToSet (Or.inl hx)
    · -- rule 10: all identifiers upserted, no DELETE, scan keeps state
      show alookup x (rule10Detect e (updateContext (updateEpcHistory s e) e)
        s.r10_damaged_events).1 = some e
      unfold rule10Detect rule10ClearOnDelete rule10Track
      simp only [hg3, hndel, Bool.false_eq_true, if_false, if_true, ite_true,
        ite_false, Bool.true_and, Bool.and_true]
      have hlook : alookup x
          (e.epc_list.foldl (fun m epc => aupsert epc e m) s.r10_damaged_events)
          = some e := alookup_foldl_aupsert_const _ _ _ _ (Or.inl hx)
      split <;> exact hlook
    · -- rule 11: all identifiers upserted; not a sale, so only the prune
      -- runs, which keeps just-written timestamps
      show alookup x (rule11Detect e (updateContext (updateEpcHistory s e) e)
        s.r11_recently_damaged).1 = some e.event_time
      unfold rule11Detect
      simp only [hg3, if_pos rfl, hsold, Bool.false_eq_true, if_false]
      have hlook : alookup x
          (e.epc_list.foldl (fun m epc => aupsert epc e.event_time m)
            s.r11_recently_damaged) = some e.event_time :=
        alookup_foldl_aupsert_const _ _ _ _ (Or.inl hx)
      exact alookup_filter_of_holds _ _ _ _ hlook
        (decide_eq_true (by omega : e.event_time > e.event_time - 24 * 3600))
  · -- rule 4: the primary identifier is tracked
    intro p hp hpne
    show (alookup p (rule4Detect e (updateContext (updateEpcHistory s e) e)
      s.r4_damaged_items).1).isSome = true
    unfold rule4Detect
    simp [hp, hpne, hg, hnobs, alookup_aupsert_self]
  · -- rule 9: a damaged inspection is not a sale, so the sold set is
    -- unchanged (and the alert scan does not mutate it)
    show (rule9Detect e (updateContext (updateEpcHistory s e) e)
      s.r9_sold_items).1 = s.r9_sold_items
    unfold rule9Detect
    simp only [hsold, Bool.false_and, Bool.false_eq_true, if_false, hg3, if_pos rfl]
    cases hfind : e.epc_list.find? (fun epc => elemStr epc s.r9_sold_items) with
    | none => simp [hfind]
    | some epc => simp [hfind]

/-- C2 amended: immediately after an inspection+damaged+ADD event is
processed, every identifier in its list is present in the tracking maps
of rules 6, 10 and 11; rule 4 records only the *primary* identifier (when
truthy); and rule 9's map — which tracks *sold* items — is untouched by
such events, so its entries are unchanged rather than extended. -/
theorem c2_damaged_tracking_amended (s : ProcState) (e : EPCISEvent)
    (hi : e.is_inspection = true) (hd : e.is_damaged = true)
    (ha : e.action = EPCISAction.ADD) :
    (∀ x ∈ e.epc_list,
      elemStr x (processEvent s e).1.r6_damaged_items = true ∧
      alookup x (processEvent s e).1.r10_damaged_events = some e ∧
      alookup x (processEvent s e).1.r11_recently_damaged = some e.event_time) ∧
    (∀ p, e.get_primary_epc = some p → p ≠ "" →
      (alookup p (processEvent s e).1.r4_damaged_items).isSome = true) ∧
    (processEvent s e).1.r9_sold_items = s.r9_sold_items :=
  processEvent_damaged_tracking_core s e hi hd ha

/-- C2 fails as stated: after a single inspection+damaged+ADD event
affecting items "A" and "B" on a fresh processor, the non-primary
identifier "B" is absent from rule 4's tracking map (rule 4 tracks only
the primary identifier), and neither identifier is in rule 9's tracking
map (rule 9 tracks *sold* items, which a damaged event never adds). -/
theorem c2_counterexample :
    multiDamagedEvent.is_inspection = true ∧
    multiDamagedEvent.is_damaged = true ∧
    multiDamagedEvent.action = EPCISAction.ADD ∧
    "B" ∈ multiDamagedEvent.epc_list ∧
    alookup "B" (processEvent initState multiDamagedEvent).1.r4_damaged_items = none ∧
    elemStr "A" (processEvent initState multiDamagedEvent).1.r9_sold_items = false ∧
    elemStr "B" (processEvent initState multiDamagedEvent).1.r9_sold_items = false := by
  refine ⟨by decide, by decide, by decide, by decide, by decide, by decide, by decide⟩

/-- C2 witness: the amended tracking property evaluated on the concrete
two-item damaged event. -/
theorem c2_witness :
    multiDamagedEvent.is_inspection = true ∧
    elemStr "B" (processEvent initState multiDamagedEvent).1.r6_damaged_items = true ∧
    alookup "B" (processEvent initState multiDamagedEvent).1.r10_damaged_events
      = some multiDamagedEvent := by
  refine ⟨by decide, ?_, ?_⟩
  · exact ((c2_damaged_tracking_amended initState multiDamagedEvent (by decide) (by decide)
      (by decide)).1 "B" (by decide)).1
  · exact ((c2_damaged_tracking_amended initState multiDamagedEvent (by decide) (by decide)
      (by decide)).1 "B" (by decide)).2.1

/-! ## Claim C4 -/

/-- Unpack a qualifying event into the facts rule 5's branches test. -/
theorem rule5QualifiesAt_unpack {L : String} {e : EPCISEvent}
    (hq : rule5QualifiesAt L e = true) :
    (e.is_inspection && e.is_damaged && decide (e.action = EPCISAction.ADD)) = true ∧
    e.get_location = some L ∧ L ≠ "" := by
  unfold rule5QualifiesAt at hq
  simp only [Bool.and_eq_true, decide_eq_true_eq] at hq
  refine ⟨by simp [hq.1.1.1, hq.1.1.2], hq.1.2, hq.2⟩

/-- A non-qualifying event never creates an average entry for `L`. -/
theorem rule5_avg_none_step (e : EPCISEvent) (ctx : Context) (st : Rule5State)
    (L : String) (hq : rule5QualifiesAt L e = false)
    (h : alookup L st.location_historical_avg = none) :
    alookup L ((rule5Detect e ctx st).1).location_historical_avg = none := by
  unfold rule5Detect
  cases hgd : (e.is_inspection && e.is_damaged && decide (e.action = EPCISAction.ADD)) with
  | false => simp only [hgd, Bool.false_eq_true, if_false]; exact h
  | true =>
    cases hloc : e.get_location with
    | none => simp only [hgd, hloc, if_true]; exact h
    | some loc =>
      by_cases hle : loc = ""
      · simp only [hgd, hloc, if_true, hle, if_pos rfl]
        exact h
      · have hLl : L ≠ loc := by
          intro hEq
          rw [hEq] at hq
          simp [rule5QualifiesAt, hgd, hloc, hle] at hq
        simp only [hgd, hloc, if_true, if_neg hle]
        cases havg : alookup loc st.location_historical_avg with
        | none =>
          simp only [havg]
          rw [alookup_aupsert_ne hLl]
          exact h
        | some a =>
          simp only [havg]
          split
          · exact h
          · rw [alookup_aupsert_ne hLl]
            exact h

/-- The average map only ever grows: once present for `L`, the entry
survives every further evaluation. -/
theorem rule5_avg_persists (e : EPCISEvent) (ctx : Context) (st : Rule5State)
    (L : String) (h : (alookup L st.location_historical_avg).isSome = true) :
    (alookup L ((rule5Detect e ctx st).1).location_historical_avg).isSome = true := by
  unfold rule5Detect
  cases hgd : (e.is_inspection && e.is_damaged && decide (e.action = EPCISAction.ADD)) with
  | false => simpa using h
  | true =>
    cases hloc : e.get_location with
    | none => simpa using h
    | some loc =>
      by_cases hle : loc = ""
      · simp only [hloc, if_true, hle, if_pos rfl]
        exact h
      · simp only [hloc, if_true, if_neg hle]
        by_cases hLl : L = loc
        · cases havg : alookup loc st.location_historical_avg with
          | none => simp only [havg]; rw [hLl, alookup_aupsert_self]; rfl
          | some a =>
            simp only [havg]
            split
            · exact h
            · rw [hLl, alookup_aupsert_self]; rfl
        · cases havg : alookup loc st.location_historical_avg with
          | none => simp only [havg]; rw [alookup_aupsert_ne hLl]; exact h
          | some a =>
            simp only [havg]
            split
            · exact h
            · rw [alookup_aupsert_ne hLl]; exact h

/-- Running rule 5 over a stream with no qualifying event at `L` leaves
`L` unseeded. -/
theorem runRule5_avg_none (L : String) :
    ∀ (es : List EPCISEvent) (st : Rule5State),
      alookup L st.location_historical_avg = none →
      (∀ e' ∈ es, rule5QualifiesAt L e' = false) →
      alookup L (runRule5 st es).location_historical_avg = none := by
  intro es
  induction es with
  | nil => intro st h _; exact h
  | cons e t ih =>
    intro st h hq
    simp only [runRule5, List.foldl_cons]
    exact ih _ (rule5_avg_none_step e {} st L (hq e (List.mem_cons_self e t)) h)
      (fun e' he' => hq e' (List.mem_cons_of_mem e he'))

/-- A qualifying event at an unseeded location never fires and seeds the
average with the current window count. -/
theorem rule5_seed (e : EPCISEvent) (ctx : Context) (st : Rule5State) (L : String)
    (hq : rule5QualifiesAt L e = true)
    (havg : alookup L st.location_historical_avg = none) :
    (rule5Detect e ctx st).2 = none ∧
    alookup L ((rule5Detect e ctx st).1).location_historical_avg =
      some ((rule5WindowCount st e L : ℚ)) := by
  obtain ⟨hgd, hloc, hLne⟩ := rule5QualifiesAt_unpack hq
  unfold rule5Detect
  simp only [hgd, hloc, if_true]
  rw [if_neg hLne]
  simp only [havg]
  refine ⟨by trivial, ?_⟩
  rw [alookup_aupsert_self]
  congr 1
  simp [rule5WindowCount]

/-- A qualifying event at a seeded location fires exactly when the window
count strictly exceeds the stored average times the multiplier; a firing
alert's details carry the window count and the stored average; a
non-firing evaluation moves the average by the 0.9/0.1 rule. -/
theorem rule5_seeded (e : EPCISEvent) (ctx : Context) (st : Rule5State) (L : String)
    (a0 : ℚ) (hq : rule5QualifiesAt L e = true)
    (havg : alookup L st.location_historical_avg = some a0) :
    (((rule5Detect e ctx st).2).isSome = true ↔
      (rule5WindowCount st e L : ℚ) > a0 * rule5Multiplier) ∧
    (∀ al, (rule5Detect e ctx st).2 = some al →
      ("current_count", DVal.int (rule5WindowCount st e L)) ∈ al.details ∧
      ("historical_average", DVal.rat a0) ∈ al.details) ∧
    ((rule5Detect e ctx st).2 = none →
      alookup L ((rule5Detect e ctx st).1).location_historical_avg =
        some (a0 * (9/10) + (rule5WindowCount st e L : ℚ) * (1/10))) := by
  obtain ⟨hgd, hloc, hLne⟩ := rule5QualifiesAt_unpack hq
  have hcnt : (((alookup L st.location_assignments).getD []).filter
        (fun ts => decide (ts > e.event_time - rule5WindowHours * 3600)) ++
      List.replicate e.epc_list.length e.event_time).length =
      rule5WindowCount st e L := by
    simp [rule5WindowCount]
  unfold rule5Detect
  simp only [hgd, hloc, if_true]
  rw [if_neg hLne]
  simp only [havg]
  by_cases hfire : (((((alookup L st.location_assignments).getD []).filter
        (fun ts => decide (ts > e.event_time - rule5WindowHours * 3600)) ++
      List.replicate e.epc_list.length e.event_time).length : ℚ)) >
      a0 * rule5Multiplier
  · rw [if_pos hfire]
    rw [hcnt] at hfire
    refine ⟨by simp [hfire], ?_, ?_⟩
    · intro al hal
      injection hal with hal
      rw [← hal]
      simp only [← hcnt]
      constructor
      · exact List.mem_cons_self _ _
      · exact List.mem_cons_of_mem _ (List.mem_cons_self _ _)
    · intro hnone
      cases hnone
  · rw [if_neg hfire]
    rw [hcnt] at hfire
    refine ⟨by simp [hfire], ?_, ?_⟩
    · intro al hal
      cases hal
    · intro _
      rw [alookup_aupsert_self]
      congr 2
      rw [← hcnt]

/-- C4: the first qualifying inspection+damaged+ADD evaluation at a
location never produces a rule-5 alert and seeds that location's average
with the current window count; at a seeded location rule 5 fires exactly
one alert iff the sliding-window count strictly exceeds the stored
average × 2.0, the alert's details include `current_count` and
`historical_average`; a non-firing evaluation updates the average, and a
seeded average persists for all later evaluations. -/
theorem c4_rule5_seed_and_threshold :
    (∀ (es : List EPCISEvent) (e : EPCISEvent) (L : String),
      rule5QualifiesAt L e = true →
      (∀ e' ∈ es, rule5QualifiesAt L e' = false) →
      (rule5Detect e {} (runRule5 {} es)).2 = none ∧
      alookup L ((rule5Detect e {} (runRule5 {} es)).1).location_historical_avg =
        some ((rule5WindowCount (runRule5 {} es) e L : ℚ))) ∧
    (∀ (st : Rule5State) (e : EPCISEvent) (L : String) (a0 : ℚ),
      rule5QualifiesAt L e = true →
      alookup L st.location_historical_avg = some a0 →
      (((rule5Detect e {} st).2).isSome = true ↔
        (rule5WindowCount st e L : ℚ) > a0 * rule5Multiplier) ∧
      (∀ al, (rule5Detect e {} st).2 = some al →
        ("current_count", DVal.int (rule5WindowCount st e L)) ∈ al.details ∧
        ("historical_average", DVal.rat a0) ∈ al.details) ∧
      ((rule5Detect e {} st).2 = none →
        alookup L ((rule5Detect e {} st).1).location_historical_avg =
          some (a0 * (9/10) + (rule5WindowCount st e L : ℚ) * (1/10)))) ∧
    (∀ (e : EPCISEvent) (st : Rule5State) (L : String),
      (alookup L st.location_historical_avg).isSome = true →
      (alookup L ((rule5Detect e {} st).1).location_historical_avg).isSome = true) := by
  refine ⟨?_, ?_, ?_⟩
  · intro es e L hq hnone
    exact rule5_seed e {} (runRule5 {} es) L hq
      (runRule5_avg_none L es {} rfl hnone)
  · intro st e L a0 hq havg
    exact rule5_seeded e {} st L a0 hq havg
  · intro e st L h
    exact rule5_avg_persists e {} st L h

/-- C4 witness: the seeding clause evaluated on a concrete first damaged
inspection at location "loc1". -/
theorem c4_witness :
    rule5QualifiesAt "loc1" (mkDamagedEvent "X" "loc1" 0) = true ∧
    (rule5Detect (mkDamagedEvent "X" "loc1" 0) {} (runRule5 {} [])).2 = none ∧
    alookup "loc1"
        ((rule5Detect (mkDamagedEvent "X" "loc1" 0) {} (runRule5 {} [])).1).location_historical_avg
      = some ((rule5WindowCount (runRule5 {} []) (mkDamagedEvent "X" "loc1" 0) "loc1" : ℚ)) := by
  have h := c4_rule5_seed_and_threshold.1 [] (mkDamagedEvent "X" "loc1" 0) "loc1"
    (by decide) (by intro e' he'; cases he')
  exact ⟨by decide, h.1, h.2⟩

/-! ## Claim C6 -/

theorem alookup_none_foldl_aerase {α : Type} (l : List String) :
    ∀ (m : List (String × α)) (x : String), alookup x m = none →
      alookup x (l.foldl (fun m k => aerase k m) m) = none := by
  induction l with
  | nil => intro m x h; simpa using h
  | cons k t ih =>
    intro m x h
    simp only [List.foldl_cons]
    exact ih _ x (alookup_none_aerase k h)

theorem mem_keys_aerase {α : Type} {x k : String} :
    ∀ {m : List (String × α)}, x ∈ (aerase k m).map Prod.fst → x ∈ m.map Prod.fst := by
  intro m
  induction m with
  | nil => intro h; simpa [aerase] using h
  | cons hd t ih =>
    intro h
    obtain ⟨k', v'⟩ := hd
    by_cases hk : k = k'
    · simp only [aerase, if_pos hk] at h
      exact List.mem_cons_of_mem _ h
    · simp only [aerase, if_neg hk, List.map_cons, List.mem_cons] at h ⊢
      rcases h with h | h
      · exact Or.inl h
      · exact Or.inr (ih h)

theorem nodup_aerase {α : Type} (k : String) :
    ∀ (m : List (String × α)), (m.map Prod.fst).Nodup →
      ((aerase k m).map Prod.fst).Nodup := by
  intro m
  induction m with
  | nil => intro h; simpa [aerase] using h
  | cons hd t ih =>
    intro h
    obtain ⟨k', v'⟩ := hd
    simp only [List.map_cons, List.nodup_cons] at h
    by_cases hk : k = k'
    · simp only [aerase, if_pos hk]
      exact h.2
    · simp only [aerase, if_neg hk, List.map_cons, List.nodup_cons]
      exact ⟨fun hm => h.1 (mem_keys_aerase hm), ih h.2⟩

theorem alookup_foldl_aerase_mem {α : Type} (l : List String) :
    ∀ (m : List (String × α)) (x : String), x ∈ l → (m.map Prod.fst).Nodup →
      alookup x (l.foldl (fun m k => aerase k m) m) = none := by
  induction l with
  | nil => intro m x hx; cases hx
  | cons k t ih =>
    intro m x hx hnd
    simp only [List.foldl_cons]
    by_cases hxk : x = k
    · apply alookup_none_foldl_aerase
      rw [hxk]
      exact alookup_aerase_self_of_nodup k m hnd
    · rcases List.mem_cons.mp hx with h | h
      · exact absurd h hxk
      · exact ih _ x h (nodup_aerase k m hnd)

theorem foldl_aupsert_head_ne {α : Type} (w : α) {Y : String} :
    ∀ (l : List String), Y ∉ l → ∀ (v : α) (t : List (String × α)),
      l.foldl (fun m k => aupsert k w m) ((Y, v) :: t) =
        (Y, v) :: l.foldl (fun m k => aupsert k w m) t := by
  intro l
  induction l with
  | nil => intro _ v t; rfl
  | cons k l' ih =>
    intro hY v t
    have hkY : k ≠ Y := fun h => hY (h ▸ List.mem_cons_self k l')
    simp only [List.foldl_cons, aupsert, if_neg hkY]
    exact ih (fun h => hY (List.mem_cons_of_mem k h)) v _

theorem foldl_aerase_head_ne {α : Type} {Y : String} :
    ∀ (l : List String), Y ∉ l → ∀ (v : α) (t : List (String × α)),
      l.foldl (fun m k => aerase k m) ((Y, v) :: t) =
        (Y, v) :: l.foldl (fun m k => aerase k m) t := by
  intro l
  induction l with
  | nil => intro _ v t; rfl
  | cons k l' ih =>
    intro hY v t
    have hkY : k ≠ Y := fun h => hY (h ▸ List.mem_cons_self k l')
    simp only [List.foldl_cons, aerase, if_neg hkY]
    exact ih (fun h => hY (List.mem_cons_of_mem k h)) v _

theorem rule10Detect_fst (e : EPCISEvent) (ctx : Context)
    (st : List (String × EPCISEvent)) :
    (rule10Detect e ctx st).1 = rule10ClearOnDelete e (rule10Track e st) := by
  unfold rule10Detect
  dsimp only
  split <;> rfl

theorem rule10_alert_epc_tracked (e : EPCISEvent) (ctx : Context)
    (st : List (String × EPCISEvent)) {a : Alert}
    (h : (rule10Detect e ctx st).2 = some a) :
    (alookup a.epc (rule10ClearOnDelete e (rule10Track e st))).isSome = true := by
  unfold rule10Detect at h
  dsimp only at h
  cases hscan : rule10Scan e.event_time (rule10ClearOnDelete e (rule10Track e st)) with
  | none => rw [hscan] at h; dsimp only at h; cases h
  | some kv =>
    obtain ⟨k, d⟩ := kv
    rw [hscan] at h
    dsimp only at h
    injection h with h
    have hepc : a.epc = k := by rw [← h]; rfl
    rw [hepc]
    exact alookup_isSome_of_mem (rule10Scan_mem _ hscan)

theorem rule10_track_lookup_none {e : EPCISEvent} {st : List (String × EPCISEvent)}
    {Y : String}
    (hq : ¬ ((e.is_inspection && e.is_damaged &&
        decide (e.action = EPCISAction.ADD)) = true ∧ Y ∈ e.epc_list))
    (h : alookup Y st = none) : alookup Y (rule10Track e st) = none := by
  unfold rule10Track
  split
  · have hnin : Y ∉ e.epc_list := fun hin => hq ⟨by assumption, hin⟩
    exact alookup_none_foldl_aupsert _ _ _ _ hnin h
  · exact h

theorem rule10_clear_lookup_none {e : EPCISEvent} {st : List (String × EPCISEvent)}
    {Y : String} (h : alookup Y st = none) :
    alookup Y (rule10ClearOnDelete e st) = none := by
  unfold rule10ClearOnDelete
  split
  · exact alookup_none_foldl_aerase _ _ _ h
  · exact h

/-- Once an item is untracked, a stream free of damaged re-assignments of
that item never names it in a rule-10 alert, and it stays untracked. -/
theorem runRule10_no_alert_of_untracked (Y : String) :
    ∀ (es : List EPCISEvent) (st : List (String × EPCISEvent)),
      alookup Y st = none →
      (∀ e' ∈ es, ¬ ((e'.is_inspection && e'.is_damaged &&
          decide (e'.action = EPCISAction.ADD)) = true ∧ Y ∈ e'.epc_list)) →
      (∀ a ∈ (runRule10 st es).2, a.epc ≠ Y) ∧
      alookup Y (runRule10 st es).1 = none := by
  intro es
  induction es with
  | nil =>
    intro st h _
    exact ⟨fun a ha => absurd ha (List.not_mem_nil a), h⟩
  | cons e t ih =>
    intro st h hq
    have hstep : alookup Y (rule10ClearOnDelete e (rule10Track e st)) = none :=
      rule10_clear_lookup_none
        (rule10_track_lookup_none (hq e (List.mem_cons_self e t)) h)
    have hrec := ih (rule10Detect e {} st).1
      (by rw [rule10Detect_fst]; exact hstep)
      (fun e' he' => hq e' (List.mem_cons_of_mem e he'))
    constructor
    · intro a ha
      simp only [runRule10] at ha
      try dsimp only at ha
      simp only [List.mem_append] at ha
      rcases ha with ha | ha
      · revert ha
        cases hdet : (rule10Detect e {} st).2 with
        | none => intro ha; exact absurd ha (List.not_mem_nil a)
        | some b =>
          intro ha haY
          simp only [List.mem_singleton] at ha
          have htracked := rule10_alert_epc_tracked e {} st hdet
          rw [← ha, haY, hstep] at htracked
          cases htracked
      · exact hrec.1 a ha
    · exact hrec.2

/-- Marking `Y` damaged on a fresh rule-10 detector tracks exactly `Y`
and fires nothing. -/
theorem rule10_damaged_single (Y loc : String) (T0 : Int) :
    (rule10Detect (mkDamagedEvent Y loc T0) {} []).1 =
      [(Y, mkDamagedEvent Y loc T0)] ∧
    (rule10Detect (mkDamagedEvent Y loc T0) {} []).2 = none := by
  have hst : rule10ClearOnDelete (mkDamagedEvent Y loc T0)
      (rule10Track (mkDamagedEvent Y loc T0) []) = [(Y, mkDamagedEvent Y loc T0)] := by
    unfold rule10Track rule10ClearOnDelete
    simp [mkDamagedEvent, EPCISEvent.is_inspection, EPCISEvent.is_damaged, aupsert]
  constructor
  · rw [rule10Detect_fst, hst]
  · unfold rule10Detect
    dsimp only
    rw [hst]
    have hcond : ¬ ((mkDamagedEvent Y loc T0).event_time -
        (mkDamagedEvent Y loc T0).event_time > 30 * 60) := by
      simp [mkDamagedEvent]
    simp only [rule10Scan, if_neg hcond]
    try rfl

/-- A DELETE for `Y` clears the single-entry tracking map and fires
nothing during its own evaluation. -/
theorem rule10_delete_clears_single (Y loc : String) (T0 tDel : Int) :
    rule10Detect (mkDeleteEvent Y loc tDel) {} [(Y, mkDamagedEvent Y loc T0)]
      = ([], none) := by
  unfold rule10Detect rule10Track rule10ClearOnDelete
  simp [mkDeleteEvent, mkDamagedEvent, EPCISEvent.is_inspection, aerase, rule10Scan]

/-- C6: rule 10's scan fires exactly one alert per call, for the *first*
tracked item (in insertion order) whose damaged timestamp is more than 30
minutes older than the current event's time, and mutates state only
through the track/clear phases; a DELETE-action event clears the tracking
entry of every item it references; after [damage `Y` at `T0`] and no
stock mutation, any event at `T0`+31min not referencing `Y` yields a
rule-10 alert naming `Y`; and after [damage `Y`], [DELETE `Y`], no later
stream free of re-damaging `Y` ever yields a rule-10 alert naming `Y`
(the DELETE call itself included, which returns no alert at all). -/
theorem c6_rule10_behaviour :
    (∀ (st : List (String × EPCISEvent)) (e : EPCISEvent) (ctx : Context),
      (rule10Detect e ctx st).1 = rule10ClearOnDelete e (rule10Track e st) ∧
      (rule10Detect e ctx st).2 =
        ((rule10ClearOnDelete e (rule10Track e st)).find?
          (fun kv => decide (e.event_time - kv.2.event_time > 30 * 60))).map
          (fun kv => mkRule10Alert e kv.1 kv.2)) ∧
    (∀ (st : List (String × EPCISEvent)) (e : EPCISEvent) (ctx : Context),
      e.action = EPCISAction.DELETE → (st.map Prod.fst).Nodup →
      ∀ x ∈ e.epc_list, alookup x (rule10Detect e ctx st).1 = none) ∧
    (∀ (Y loc : String) (T0 : Int) (e2 : EPCISEvent),
      e2.event_time = T0 + 31 * 60 → Y ∉ e2.epc_list →
      ∃ a, (rule10Detect e2 {}
          ((rule10Detect (mkDamagedEvent Y loc T0) {} []).1)).2 = some a ∧
        a.epc = Y ∧ a.rule_id = 10) ∧
    (∀ (Y loc : String) (T0 tDel : Int) (es : List EPCISEvent),
      (∀ e' ∈ es, ¬ ((e'.is_inspection && e'.is_damaged &&
          decide (e'.action = EPCISAction.ADD)) = true ∧ Y ∈ e'.epc_list)) →
      (rule10Detect (mkDeleteEvent Y loc tDel) {}
          ((rule10Detect (mkDamagedEvent Y loc T0) {} []).1)).2 = none ∧
      (∀ a ∈ (runRule10 ((rule10Detect (mkDeleteEvent Y loc tDel) {}
          ((rule10Detect (mkDamagedEvent Y loc T0) {} []).1)).1) es).2,
        a.epc ≠ Y)) := by
  refine ⟨?_, ?_, ?_, ?_⟩
  · intro st e ctx
    refine ⟨rule10Detect_fst e ctx st, ?_⟩
    rw [← rule10Scan_eq_find]
    unfold rule10Detect
    dsimp only
    cases hscan : rule10Scan e.event_time (rule10ClearOnDelete e (rule10Track e st)) with
    | none => simp [hscan]
    | some kv => obtain ⟨k, d⟩ := kv; simp [hscan]
  · intro st e ctx hdel hnd x hx
    have htrack : rule10Track e st = st := by
      unfold rule10Track; simp [hdel]
    have hclear : rule10ClearOnDelete e st =
        e.epc_list.foldl (fun m epc => aerase epc m) st := by
      unfold rule10ClearOnDelete; simp [hdel]
    rw [rule10Detect_fst, htrack, hclear]
    exact alookup_foldl_aerase_mem _ _ _ hx hnd
  · intro Y loc T0 e2 htime hY
    have hev : (mkDamagedEvent Y loc T0).event_time = T0 := rfl
    have ht1 : ∃ t1, rule10Track e2 [(Y, mkDamagedEvent Y loc T0)] =
        (Y, mkDamagedEvent Y loc T0) :: t1 := by
      unfold rule10Track
      split
      · rw [foldl_aupsert_head_ne e2 e2.epc_list hY]
        exact ⟨_, rfl⟩
      · exact ⟨[], rfl⟩
    obtain ⟨t1, ht1⟩ := ht1
    have ht2 : ∃ t2, rule10ClearOnDelete e2 ((Y, mkDamagedEvent Y loc T0) :: t1) =
        (Y, mkDamagedEvent Y loc T0) :: t2 := by
      unfold rule10ClearOnDelete
      split
      · rw [foldl_aerase_head_ne e2.epc_list hY]
        exact ⟨_, rfl⟩
      · exact ⟨t1, rfl⟩
    obtain ⟨t2, ht2⟩ := ht2
    refine ⟨mkRule10Alert e2 Y (mkDamagedEvent Y loc T0), ?_, rfl, rfl⟩
    rw [(rule10_damaged_single Y loc T0).1]
    unfold rule10Detect
    dsimp only
    rw [ht1, ht2]
    have hcond : e2.event_time - (mkDamagedEvent Y loc T0).event_time > 30 * 60 := by
      rw [hev, htime]; omega
    simp only [rule10Scan, if_pos hcond]
  · intro Y loc T0 tDel es hq
    constructor
    · rw [(rule10_damaged_single Y loc T0).1, rule10_delete_clears_single Y loc T0 tDel]
    · rw [(rule10_damaged_single Y loc T0).1, rule10_delete_clears_single Y loc T0 tDel]
      exact (runRule10_no_alert_of_untracked Y es [] rfl hq).1

/-- C6 witness: the positive scenario evaluated concretely — damage "Y"
at time 0, then an unrelated event at minute 31 fires a rule-10 alert
naming "Y". -/
theorem c6_witness :
    (mkPlainEvent "Z" "L" 1860).event_time = 0 + 31 * 60 ∧
    ∃ a, (rule10Detect (mkPlainEvent "Z" "L" 1860) {}
        ((rule10Detect (mkDamagedEvent "Y" "L" 0) {} []).1)).2 = some a ∧
      a.epc = "Y" ∧ a.rule_id = 10 := by
  refine ⟨by decide, ?_⟩
  exact c6_rule10_behaviour.2.2.1 "Y" "L" 0 (mkPlainEvent "Z" "L" 1860)
    (by decide) (by decide)

/-! ## Claim C5 -/

theorem mem_collectAlerts_of_mem {a : Alert} :
    ∀ {opts : List (Option Alert)}, some a ∈ opts → a ∈ collectAlerts opts := by
  intro opts
  induction opts with
  | nil => intro h; cases h
  | cons hd t ih =>
    intro h
    cases hd with
    | none =>
      have h2 : some a ∈ t := by
        rcases List.mem_cons.mp h with h1 | h1
        · cases h1
        · exact h1
      exact ih h2
    | some b =>
      rcases List.mem_cons.mp h with h1 | h1
      · injection h1 with h1
        rw [h1]
        exact List.mem_cons_self b (collectAlerts t)
      · exact List.mem_cons_of_mem b (ih h1)

/-- `process_event` returns exactly the alerts collected from the twelve
detector calls in declared order. -/
theorem processEvent_snd (s : ProcState) (e : EPCISEvent) :
    (processEvent s e).2 = collectAlerts
      [rule1Detect e (updateContext (updateEpcHistory s e) e),
       rule2Detect e (updateContext (updateEpcHistory s e) e),
       rule3Detect e (updateContext (updateEpcHistory s e) e),
       (rule4Detect e (updateContext (updateEpcHistory s e) e) s.r4_damaged_items).2,
       (rule5Detect e (updateContext (updateEpcHistory s e) e) s.r5).2,
       (rule6Detect e (updateContext (updateEpcHistory s e) e) s.r6_damaged_items).2,
       rule7Detect e (updateContext (updateEpcHistory s e) e),
       rule8Detect e (updateContext (updateEpcHistory s e) e),
       (rule9Detect e (updateContext (updateEpcHistory s e) e) s.r9_sold_items).2,
       (rule10Detect e (updateContext (updateEpcHistory s e) e) s.r10_damaged_events).2,
       (rule11Detect e (updateContext (updateEpcHistory s e) e) s.r11_recently_damaged).2,
       rule12Detect e (updateContext (updateEpcHistory s e) e)] := rfl

/-- Rule 6 on a sale event: when its set already contains a referenced
item and the discard branch is inert, it fires a Critical alert naming
the first such item. -/
theorem rule6_sale_alert (e : EPCISEvent) (ctx : Context) (st : List String) (x : String)
    (hnd : (e.is_damaged && decide (e.action = EPCISAction.ADD)) = false)
    (hprev : ctx.previous_disposition = none)
    (hsold : e.is_sold = true)
    (hfind : e.epc_list.find? (fun epc => elemStr epc st) = some x) :
    ∃ a, (rule6Detect e ctx st).2 = some a ∧ a.rule_id = 6 ∧
      a.severity = AlertSeverity.Critical ∧ a.epc = x := by
  unfold rule6Detect
  simp only [hnd, Bool.false_eq_true, if_false, hprev, hsold, if_true, hfind]
  exact ⟨_, rfl, rfl, rfl, rfl⟩

/-- Rule 11 on a sale event: when its map holds a fresh damaged timestamp
for a referenced item, it fires a Critical alert naming the first such
item. -/
theorem rule11_sale_alert (e : EPCISEvent) (ctx : Context) (st : List (String × Int))
    (x : String)
    (hnq : (e.is_inspection && e.is_damaged && decide (e.action = EPCISAction.ADD)) = false)
    (hsold : e.is_sold = true)
    (hfind : e.epc_list.find? (fun epc =>
      match alookup epc st with
      | some t => decide (e.event_time - t < 24 * 3600)
      | none => false) = some x) :
    ∃ a, (rule11Detect e ctx st).2 = some a ∧ a.rule_id = 11 ∧
      a.severity = AlertSeverity.Critical ∧ a.epc = x := by
  unfold rule11Detect
  simp only [hnq, Bool.false_eq_true, if_false, hsold, if_true, hfind]
  exact ⟨_, rfl, rfl, rfl, rfl⟩

/-- C5: marking any item X damaged by inspection at time T0 and selling X
an hour later produces, on the sale event, both a rule-6 alert and a
rule-11 alert, each Critical and each naming X. -/
theorem c5_damaged_then_sold_critical (X loc : String) (T0 : Int)
    (hX : X ≠ "") :
    (∃ a ∈ (processEvent (processEvent initState (mkDamagedEvent X loc T0)).1
        (mkSaleEvent X loc (T0 + 3600))).2,
      a.rule_id = 6 ∧ a.severity = AlertSeverity.Critical ∧ a.epc = X) ∧
    (∃ a ∈ (processEvent (processEvent initState (mkDamagedEvent X loc T0)).1
        (mkSaleEvent X loc (T0 + 3600))).2,
      a.rule_id = 11 ∧ a.severity = AlertSeverity.Critical ∧ a.epc = X) := by
  have htrack := processEvent_damaged_tracking_core initState (mkDamagedEvent X loc T0)
    rfl rfl rfl
  have hmem1 : X ∈ (mkDamagedEvent X loc T0).epc_list := List.mem_cons_self X []
  have h6set : elemStr X
      ((processEvent initState (mkDamagedEvent X loc T0)).1).r6_damaged_items = true :=
    (htrack.1 X hmem1).1
  have h11map : alookup X
      ((processEvent initState (mkDamagedEvent X loc T0)).1).r11_recently_damaged =
      some (mkDamagedEvent X loc T0).event_time := (htrack.1 X hmem1).2.2
  have hprev2 : (updateContext
      (updateEpcHistory ((processEvent initState (mkDamagedEvent X loc T0)).1)
        (mkSaleEvent X loc (T0 + 3600)))
      (mkSaleEvent X loc (T0 + 3600))).previous_disposition = none := by
    rw [updateContext_prev_of_primary _ _
      (show (mkSaleEvent X loc (T0 + 3600)).get_primary_epc = some X from rfl) hX]
    exact get_previous_disposition_none_of_current _ _
      (alookup_updateEpcHistory_of_disp
        ((processEvent initState (mkDamagedEvent X loc T0)).1)
        (mkSaleEvent X loc (T0 + 3600)) rfl (List.mem_cons_self X []))
  have hlist : (mkSaleEvent X loc (T0 + 3600)).epc_list = [X] := rfl
  have hfind6 : (mkSaleEvent X loc (T0 + 3600)).epc_list.find?
      (fun epc => elemStr epc
        ((processEvent initState (mkDamagedEvent X loc T0)).1).r6_damaged_items)
      = some X := by
    simp [hlist, List.find?_cons, h6set]
  have harith : (T0 + 3600 : Int) - T0 < 24 * 3600 := by omega
  have hts : (mkSaleEvent X loc (T0 + 3600)).event_time = T0 + 3600 := rfl
  have htd : (mkDamagedEvent X loc T0).event_time = T0 := rfl
  have hfind11 : (mkSaleEvent X loc (T0 + 3600)).epc_list.find?
      (fun epc =>
        match alookup epc
          ((processEvent initState (mkDamagedEvent X loc T0)).1).r11_recently_damaged with
        | some t => decide ((mkSaleEvent X loc (T0 + 3600)).event_time - t < 24 * 3600)
        | none => false) = some X := by
    simp [hlist, List.find?_cons, h11map, hts, htd, harith]
  obtain ⟨a6, ha6eq, ha6⟩ := rule6_sale_alert (mkSaleEvent X loc (T0 + 3600))
    (updateContext
      (updateEpcHistory ((processEvent initState (mkDamagedEvent X loc T0)).1)
        (mkSaleEvent X loc (T0 + 3600)))
      (mkSaleEvent X loc (T0 + 3600)))
    ((processEvent initState (mkDamagedEvent X loc T0)).1).r6_damaged_items X
    rfl hprev2 rfl hfind6
  obtain ⟨a11, ha11eq, ha11⟩ := rule11_sale_alert (mkSaleEvent X loc (T0 + 3600))
    (updateContext
      (updateEpcHistory ((processEvent initState (mkDamagedEvent X loc T0)).1)
        (mkSaleEvent X loc (T0 + 3600)))
      (mkSaleEvent X loc (T0 + 3600)))
    ((processEvent initState (mkDamagedEvent X loc T0)).1).r11_recently_damaged X
    rfl rfl hfind11
  rw [processEvent_snd]
  constructor
  · refine ⟨a6, mem_collectAlerts_of_mem ?_, ha6⟩
    refine List.mem_cons_of_mem _ (List.mem_cons_of_mem _ (List.mem_cons_of_mem _
      (List.mem_cons_of_mem _ (List.mem_cons_of_mem _ ?_))))
    exact List.mem_cons.mpr (Or.inl ha6eq.symm)
  · refine ⟨a11, mem_collectAlerts_of_mem ?_, ha11⟩
    refine List.mem_cons_of_mem _ (List.mem_cons_of_mem _ (List.mem_cons_of_mem _
      (List.mem_cons_of_mem _ (List.mem_cons_of_mem _ (List.mem_cons_of_mem _
      (List.mem_cons_of_mem _ (List.mem_cons_of_mem _ (List.mem_cons_of_mem _
      (List.mem_cons_of_mem _ ?_)))))))))
    exact List.mem_cons.mpr (Or.inl ha11eq.symm)

/-- C5 witness: the two Critical alerts evaluated at a concrete item and
location. -/
theorem c5_witness :
    ("EPC1" : String) ≠ "" ∧
    ((∃ a ∈ (processEvent (processEvent initState (mkDamagedEvent "EPC1" "L1" 0)).1
        (mkSaleEvent "EPC1" "L1" (0 + 3600))).2,
      a.rule_id = 6 ∧ a.severity = AlertSeverity.Critical ∧ a.epc = "EPC1") ∧
    (∃ a ∈ (processEvent (processEvent initState (mkDamagedEvent "EPC1" "L1" 0)).1
        (mkSaleEvent "EPC1" "L1" (0 + 3600))).2,
      a.rule_id = 11 ∧ a.severity = AlertSeverity.Critical ∧ a.epc = "EPC1")) :=
  ⟨by decide,
   c5_damaged_then_sold_critical "EPC1" "L1" 0 (by decide)⟩

end StatusDashboard
